import Mathlib

/-!
Verification of the beautiful-mermaid XY-chart visual-encoding engine.

The development shallowly embeds the chart color palette module
(`colors.ts`) and the SVG renderer (`xy-renderer.ts`) over exact rational
arithmetic.  JavaScript numbers are modelled as `ℚ`; the JS operations
`Math.round`, `%`, `Math.ceil`, `toString(16)`, `padStart`, `toFixed` and
`toLocaleString` are modelled explicitly below.  Fallible hex parsing
(`parseInt` returning `NaN` on garbage) is modelled with `Option`;
NaN propagation through an entire color computation is collapsed to the
concrete sentinel string the JS code produces in that case.
-/

namespace BeautifulMermaid

/-! ## JavaScript numeric primitives over ℚ -/

/-- Truncation toward zero, as the JS remainder operator coerces its
quotient. -/
def qtrunc (q : ℚ) : ℤ := if 0 ≤ q then ⌊q⌋ else ⌈q⌉

/-- The JS remainder operator on numbers: `a % b = a - b * trunc (a / b)`
(the result carries the sign of `a`). -/
def jsMod (a b : ℚ) : ℚ := a - b * qtrunc (a / b)

/-- JS `Math.round`: round half toward positive infinity. -/
def jsRound (q : ℚ) : ℤ := ⌊q + 1/2⌋

theorem jsRound_eq (q : ℚ) (n : ℤ) (h1 : (n:ℚ) ≤ q + 1/2) (h2 : q + 1/2 < n + 1) :
    jsRound q = n := by
  unfold jsRound
  rw [Int.floor_eq_iff]
  exact ⟨h1, h2⟩

theorem jsRound_intCast (n : ℤ) : jsRound (n : ℚ) = n :=
  jsRound_eq _ _ (by norm_num) (by norm_num)

theorem jsRound_natCast (n : ℕ) : jsRound (n : ℚ) = n :=
  jsRound_eq _ _ (by norm_num) (by norm_num)

/-- For a positive modulus the JS remainder lies strictly between `-b`
and `b`. -/
theorem jsMod_bounds (a b : ℚ) (hb : 0 < b) : -b < jsMod a b ∧ jsMod a b < b := by
  unfold jsMod qtrunc
  have hbne : b ≠ 0 := hb.ne'
  have key : a = b * (a / b) := by field_simp
  by_cases h : 0 ≤ a / b
  · rw [if_pos h]
    have h1 : ((⌊a / b⌋ : ℤ) : ℚ) ≤ a / b := Int.floor_le _
    have h2 : a / b < ⌊a / b⌋ + 1 := Int.lt_floor_add_one _
    constructor
    · nlinarith
    · nlinarith
  · rw [if_neg h]
    have h1 : a / b ≤ ((⌈a / b⌉ : ℤ) : ℚ) := Int.le_ceil _
    have h2 : (⌈a / b⌉ : ℚ) < a / b + 1 := Int.ceil_lt_add_one _
    constructor
    · nlinarith
    · nlinarith

/-- For nonnegative `a` and positive `b` the JS remainder lies in `[0, b)`. -/
theorem jsMod_nonneg_bounds (a b : ℚ) (hb : 0 < b) (ha : 0 ≤ a) :
    0 ≤ jsMod a b ∧ jsMod a b < b := by
  unfold jsMod qtrunc
  have hbne : b ≠ 0 := hb.ne'
  have hq : 0 ≤ a / b := div_nonneg ha hb.le
  rw [if_pos hq]
  have key : a = b * (a / b) := by field_simp
  have h1 : ((⌊a / b⌋ : ℤ) : ℚ) ≤ a / b := Int.floor_le _
  have h2 : a / b < ⌊a / b⌋ + 1 := Int.lt_floor_add_one _
  constructor
  · nlinarith
  · nlinarith

/-! ## Digit / string formatting primitives

All digit expansions are fuel-driven structural recursions so that the
kernel can evaluate them on concrete inputs.  The fuel is always chosen
at the call site to be sufficient (at least the number of digits). -/

/-- Digits of a natural number in the given base, most significant first
(the core of JS `Number.prototype.toString(base)`; `Nat.digitChar`
produces the lowercase digits `0..9a..f` that JS produces). -/
def digitsAux (base : ℕ) : ℕ → ℕ → List Char
  | 0, _ => []
  | fuel+1, n =>
    if n < base then [Nat.digitChar n]
    else digitsAux base fuel (n / base) ++ [Nat.digitChar (n % base)]

/-- `n.toString(base)` for a natural number. -/
def natToBase (base n : ℕ) : String := String.mk (digitsAux base (n+1) n)

/-- `i.toString(base)` for an integer (JS prefixes a minus sign). -/
def intToBase (base : ℕ) (i : ℤ) : String :=
  if i < 0 then "-" ++ natToBase base (-i).toNat else natToBase base i.toNat

/-- `String.prototype.padStart(2, c)`. -/
def padStart2 (c : Char) (s : String) : String :=
  if s.length < 2 then String.mk (List.replicate (2 - s.length) c) ++ s else s

/-- Decimal digits of a fractional part `q ∈ [0,1)`, fuel-driven.  The JS
code only ever formats numbers with short finite decimal expansions; 64
digits of fuel cover every value arising in this development exactly. -/
def fracDigitsAux : ℕ → ℚ → List Char
  | 0, _ => []
  | fuel+1, q =>
    if q = 0 then []
    else
      let d := (⌊q * 10⌋).toNat
      Nat.digitChar d :: fracDigitsAux fuel (q * 10 - d)

/-- JS number-to-string conversion (`String(n)` / template interpolation)
for rationals with a finite decimal expansion: integer part, then a dot
and the fractional digits when the fraction is nonzero (`String(3) = "3"`,
`String(-0.5) = "-0.5"`, `String(0) = "0"`). -/
def decStr (q : ℚ) : String :=
  (if q < 0 then "-" else "") ++ natToBase 10 ⌊|q|⌋.toNat ++
    (let ds := fracDigitsAux 64 (|q| - ⌊|q|⌋)
     if ds = [] then "" else "." ++ String.mk ds)

/-- The renderer's coordinate formatter `r(n) = String(Math.round(n * 10) / 10)`. -/
def rstr (n : ℚ) : String := decStr ((jsRound (n * 10) : ℚ) / 10)

/-- Insert en-US thousands separators into a reversed digit list
(least-significant digit first); `i` is the position of the head digit. -/
def commaRev : ℕ → List Char → List Char
  | _, [] => []
  | i, c :: rest =>
    (if i ≠ 0 ∧ i % 3 = 0 then [',', c] else [c]) ++ commaRev (i+1) rest

/-- `n.toLocaleString('en-US')` for an integer: decimal digits grouped in
threes by commas, minus sign in front. -/
def localeInt (i : ℤ) : String :=
  (if i < 0 then "-" else "") ++
    String.mk (commaRev 0 (digitsAux 10 (i.natAbs + 1) i.natAbs).reverse).reverse

/-- JS `Number.prototype.toFixed(f)`: sign split off first, then the
magnitude rounded to `f` decimal places with ties away from zero. -/
def jsToFixed (f : ℕ) (v : ℚ) : String :=
  let sign := if v < 0 then "-" else ""
  let n := (⌊|v| * 10^f + 1/2⌋).toNat
  if f = 0 then sign ++ natToBase 10 n
  else sign ++ natToBase 10 (n / 10^f) ++ "." ++ natToBase 10 (n % 10^f)

/-! ## Hex parsing (`parseInt(s, 16)` on two-character slices)

A failed parse yields `none`, modelling the `NaN` JS produces; the claims
only ever evaluate the parsers on well-formed hex strings. -/

/-- Value of a single hex digit character, if any (JS `parseInt` accepts
both cases). -/
def hexVal (c : Char) : Option ℕ :=
  if '0' ≤ c ∧ c ≤ '9' then some (c.toNat - 48)
  else if 'a' ≤ c ∧ c ≤ 'f' then some (c.toNat - 87)
  else if 'A' ≤ c ∧ c ≤ 'F' then some (c.toNat - 55)
  else none

/-- `parseInt(·, 16)` on a two-character slice of the color string. -/
def hexPair : List Char → Option ℕ
  | a :: b :: _ =>
    match hexVal a, hexVal b with
    | some hi, some lo => some (16 * hi + lo)
    | _, _ => none
  | _ => none

/-- `hex.replace('#', '')`: for the color strings in the caller contract
the only possible `#` is the leading one. -/
def stripHash (s : String) : List Char :=
  match s.data with
  | '#' :: rest => rest
  | l => l

/-! ## Color palette module (src: colors.ts) -/

/-- Default accent for charts when the theme does not provide one. -/
def CHART_ACCENT_FALLBACK : String := "#3b82f6"

/-- `hexToRgb`: the three channel bytes of a hex color string.  `none`
models the `NaN` triple JS produces on malformed input (the code never
branches on it, and every claim evaluates on well-formed colors). -/
def hexToRgb (hex : String) : Option (ℕ × ℕ × ℕ) :=
  let l := stripHash hex
  match hexPair l, hexPair (l.drop 2), hexPair (l.drop 4) with
  | some rv, some gv, some bv => some (rv, gv, bv)
  | _, _, _ => none

/-- One channel of `rgbToHex`:
`Math.round(Math.max(0, Math.min(255, v))).toString(16).padStart(2, '0')`
(the channel is clamped to `[0, 255]` and only then rounded). -/
def toHexClamped (v : ℚ) : String :=
  padStart2 '0' (intToBase 16 (jsRound (max 0 (min 255 v))))

/-- `rgbToHex`. -/
def rgbToHex (rv gv bv : ℚ) : String :=
  "#" ++ toHexClamped rv ++ toHexClamped gv ++ toHexClamped bv

/-- `mixHexColors`: per-channel linear interpolation in RGB space.  The
sentinel result models the `"#NaNNaNNaN"` string the JS code builds when
`NaN` channels from a malformed input flow through `rgbToHex`. -/
def mixHexColors (bgHex fgHex : String) (ratio : ℚ) : String :=
  match hexToRgb bgHex, hexToRgb fgHex with
  | some (br, bgc, bb), some (fr, fgc, fb) =>
    let inv := 1 - ratio
    rgbToHex (br * inv + fr * ratio) (bgc * inv + fgc * ratio) (bb * inv + fb * ratio)
  | _, _ => "#NaNNaNNaN"

/-- `hexToHsl`: hue in `[0, 360)`, saturation and lightness in `[0, 100]`
(each channel is first normalized by 255). -/
def hexToHsl (hex : String) : Option (ℚ × ℚ × ℚ) :=
  match hexToRgb hex with
  | none => none
  | some (r8, g8, b8) =>
    let ri : ℚ := r8 / 255
    let gi : ℚ := g8 / 255
    let bi : ℚ := b8 / 255
    let mx := max (max ri gi) bi
    let mn := min (min ri gi) bi
    let l := (mx + mn) / 2
    if mx = mn then some (0, 0, l * 100)
    else
      let d := mx - mn
      let s := if l > 1/2 then d / (2 - mx - mn) else d / (mx + mn)
      let hue :=
        if mx = ri then ((gi - bi) / d + (if gi < bi then 6 else 0)) / 6
        else if mx = gi then ((bi - ri) / d + 2) / 6
        else ((ri - gi) / d + 4) / 6
      some (hue * 360, s * 100, l * 100)

/-- `hslToHex`: chroma construction and six-sector lookup, then one byte
per channel via `Math.round((v + m) * 255).toString(16).padStart(2,'0')`
(this byte conversion does not clamp). -/
def hslToHex (h s l : ℚ) : String :=
  let si := s / 100
  let li := l / 100
  let c := (1 - |2 * li - 1|) * si
  let x := c * (1 - |jsMod (h / 60) 2 - 1|)
  let m := li - c / 2
  let rgb : ℚ × ℚ × ℚ :=
    if h < 60 then (c, x, 0)
    else if h < 120 then (x, c, 0)
    else if h < 180 then (0, c, x)
    else if h < 240 then (0, x, c)
    else if h < 300 then (x, 0, c)
    else (c, 0, x)
  let toHex : ℚ → String := fun v => padStart2 '0' (intToBase 16 (jsRound ((v + m) * 255)))
  "#" ++ toHex rgb.1 ++ toHex rgb.2.1 ++ toHex rgb.2.2

/-- `isDarkBackground`: HSL lightness below 50.  On a malformed color the
JS comparison `NaN < 50` is false. -/
def isDarkBackground (bgHex : String) : Bool :=
  match hexToHsl bgHex with
  | some (_, _, l) => decide (l < 50)
  | none => false

/-- The hue/saturation/lightness triple `getSeriesColor` passes to
`hslToHex` for `index > 0` (`none` when the accent fails to parse). -/
def seriesHSL (index : ℕ) (accentColor : String) (bgColor : Option String) :
    Option (ℚ × ℚ × ℚ) :=
  match hexToHsl accentColor with
  | none => none
  | some (h, s, _) =>
    let chartS := max 55 (min 85 s)
    let tier : ℕ := (index + 1) / 2          -- Math.ceil(index / 2)
    let oddIndex := index % 2 = 1
    -- bgColor && isDarkBackground(bgColor) ? !oddIndex : oddIndex
    let dark : Bool :=
      match bgColor with
      | some b => if isDarkBackground b then decide (¬oddIndex) else decide oddIndex
      | none => decide oddIndex
    let l : ℚ := if dark then max 25 (48 - (tier : ℚ) * 13) else min 78 (55 + (tier : ℚ) * 11)
    let hShift : ℚ := (if dark then -8 else 12) * (tier : ℚ)
    let newH := jsMod (jsMod (h + hShift) 360 + 360) 360
    some (newH, chartS, l)

/-- `getSeriesColor`: index 0 returns the accent unchanged; higher indices
go through `seriesHSL` and `hslToHex`.  The sentinel models the
`"#NaNNaNNaN"` JS builds when the accent fails to parse. -/
def getSeriesColor (index : ℕ) (accentColor : String) (bgColor : Option String) : String :=
  if index = 0 then accentColor
  else
    match seriesHSL index accentColor bgColor with
    | some (h, s, l) => hslToHex h s l
    | none => "#NaNNaNNaN"

/-! ## The channel formula the spec claims for `mixHexColors`

The spec (and claim C1) asserts the result channel is
`round(bg*(1-ratio) + fg*ratio)` with *no* restriction to `[0,255]`.
The following pair of definitions follows the claim's words, for
comparison with `mixHexColors` above (which embeds the code). -/

/-- One channel as the claim describes it: rounded but never clamped. -/
def toHexUnclamped (v : ℚ) : String := padStart2 '0' (intToBase 16 (jsRound v))

/-- `rgbToHex` as the claim describes it (no clamping). -/
def rgbToHexUnclamped (rv gv bv : ℚ) : String :=
  "#" ++ toHexUnclamped rv ++ toHexUnclamped gv ++ toHexUnclamped bv

/-- `mixHexColors` as claim C1 describes it: per-channel
`round(bg*(1-ratio) + fg*ratio)` with no `[0,255]` restriction. -/
def mixHexColorsUnclamped (bgHex fgHex : String) (ratio : ℚ) : String :=
  match hexToRgb bgHex, hexToRgb fgHex with
  | some (br, bgc, bb), some (fr, fgc, fb) =>
    let inv := 1 - ratio
    rgbToHexUnclamped (br * inv + fr * ratio) (bgc * inv + fgc * ratio) (bb * inv + fb * ratio)
  | _, _ => "#NaNNaNNaN"

/-! ## Helper lemmas: parse/print roundtrip on canonical hex colors -/

theorem mixHexColors_parsed (bgHex fgHex : String) (ratio : ℚ)
    (br bgc bb fr fgc fb : ℕ)
    (hbg : hexToRgb bgHex = some (br, bgc, bb)) (hfg : hexToRgb fgHex = some (fr, fgc, fb)) :
    mixHexColors bgHex fgHex ratio =
      rgbToHex (br * (1 - ratio) + fr * ratio) (bgc * (1 - ratio) + fgc * ratio)
        (bb * (1 - ratio) + fb * ratio) := by
  unfold mixHexColors
  rw [hbg, hfg]

theorem mixHexColorsUnclamped_parsed (bgHex fgHex : String) (ratio : ℚ)
    (br bgc bb fr fgc fb : ℕ)
    (hbg : hexToRgb bgHex = some (br, bgc, bb)) (hfg : hexToRgb fgHex = some (fr, fgc, fb)) :
    mixHexColorsUnclamped bgHex fgHex ratio =
      rgbToHexUnclamped (br * (1 - ratio) + fr * ratio) (bgc * (1 - ratio) + fgc * ratio)
        (bb * (1 - ratio) + fb * ratio) := by
  unfold mixHexColorsUnclamped
  rw [hbg, hfg]

theorem hexVal_digitChar (d : ℕ) (hd : d < 16) : hexVal (Nat.digitChar d) = some d := by
  interval_cases d <;> rfl

theorem mk_append (a b : List Char) : String.mk a ++ String.mk b = String.mk (a ++ b) := rfl

/-- A clamped-then-rounded byte renders as exactly two hex digit
characters. -/
theorem byteHex_eq (n : ℕ) (hn : n ≤ 255) :
    padStart2 '0' (intToBase 16 (n : ℤ)) =
      String.mk [Nat.digitChar (n / 16), Nat.digitChar (n % 16)] := by
  have hnn : ¬ ((n : ℤ) < 0) := by omega
  rw [intToBase, if_neg hnn, Int.toNat_natCast, natToBase]
  rcases Nat.lt_or_ge n 16 with h16 | h16
  · have hdiv : n / 16 = 0 := by omega
    rw [digitsAux, if_pos h16, hdiv]
    rw [padStart2]
    simp only [String.length]
    norm_num
    rw [mk_append, Nat.mod_eq_of_lt h16]
    rfl
  · obtain ⟨m, rfl⟩ : ∃ m, n = m + 1 := ⟨n - 1, by omega⟩
    rw [digitsAux, if_neg (by omega)]
    have hin : (m + 1) / 16 < 16 := by omega
    rw [digitsAux, if_pos hin]
    rw [padStart2]
    simp only [String.length]
    norm_num

/-- Printing three bytes and reparsing them recovers the bytes: the
parse/print roundtrip on `rgbToHex`'s canonical output. -/
theorem hexToRgb_rgbToHex (rv gv bv : ℕ) (hr : rv ≤ 255) (hg : gv ≤ 255) (hb : bv ≤ 255) :
    hexToRgb (rgbToHex rv gv bv) = some (rv, gv, bv) := by
  have clamp : ∀ (n : ℕ), n ≤ 255 → toHexClamped n =
      String.mk [Nat.digitChar (n / 16), Nat.digitChar (n % 16)] := by
    intro n hn
    rw [toHexClamped]
    have h1 : min (255:ℚ) (n:ℚ) = (n:ℚ) := min_eq_right (by exact_mod_cast hn)
    have h2 : max (0:ℚ) (n:ℚ) = (n:ℚ) := max_eq_right (by positivity)
    rw [h1, h2, jsRound_natCast, byteHex_eq n hn]
  rw [rgbToHex, clamp rv hr, clamp gv hg, clamp bv hb]
  rw [show ("#" : String) = String.mk ['#'] from rfl, mk_append, mk_append, mk_append]
  rw [hexToRgb, stripHash]
  simp only [List.cons_append, List.nil_append, List.drop_succ_cons, List.drop_zero]
  rw [hexPair, hexPair, hexPair]
  rw [hexVal_digitChar (rv / 16) (by omega), hexVal_digitChar (rv % 16) (by omega),
    hexVal_digitChar (gv / 16) (by omega), hexVal_digitChar (gv % 16) (by omega),
    hexVal_digitChar (bv / 16) (by omega), hexVal_digitChar (bv % 16) (by omega)]
  simp only []
  have : ∀ (k : ℕ), 16 * (k / 16) + k % 16 = k := fun k => by omega
  rw [this rv, this gv, this bv]

/-! ## Claim C1 -/

/-- C1 counterexample: at ratio 2 the code clamps each channel to
`[0, 255]` (giving `#ffffff`), while the claimed unclamped formula would
render the channel value 510 as `1fe`.  The claim that no restriction to
`[0,255]` is applied is therefore false. -/
theorem mixHexColors_clamps_channels :
    mixHexColors "#000000" "#ffffff" 2 = "#ffffff" ∧
    mixHexColorsUnclamped "#000000" "#ffffff" 2 = "#1fe1fe1fe" ∧
    mixHexColors "#000000" "#ffffff" 2 ≠ mixHexColorsUnclamped "#000000" "#ffffff" 2 := by
  have harg : ((0:ℕ) : ℚ) * (1 - 2) + ((255:ℕ) : ℚ) * 2 = 510 := by norm_num
  have h1 : mixHexColors "#000000" "#ffffff" 2 = "#ffffff" := by
    rw [mixHexColors_parsed "#000000" "#ffffff" 2 0 0 0 255 255 255 rfl rfl, harg]
    have hmin : min (255:ℚ) 510 = 255 := by norm_num
    have hmax : max (0:ℚ) (255:ℚ) = 255 := by norm_num
    have hr : jsRound (255:ℚ) = 255 := jsRound_eq _ 255 (by norm_num) (by norm_num)
    rw [rgbToHex, toHexClamped, hmin, hmax, hr]
    rfl
  have h2 : mixHexColorsUnclamped "#000000" "#ffffff" 2 = "#1fe1fe1fe" := by
    rw [mixHexColorsUnclamped_parsed "#000000" "#ffffff" 2 0 0 0 255 255 255 rfl rfl, harg]
    have hr : jsRound (510:ℚ) = 510 := jsRound_eq _ 510 (by norm_num) (by norm_num)
    rw [rgbToHexUnclamped, toHexUnclamped, hr]
    rfl
  refine ⟨h1, h2, ?_⟩
  rw [h1, h2]
  decide

/-- C1 (amended): the `ratio` parameter is indeed never clamped — it
enters the per-channel linear mix as-is, for every rational ratio — but
each resulting channel is clamped to `[0, 255]` *before* rounding:
`channel = round(max(0, min(255, bg*(1-ratio) + fg*ratio)))`. -/
theorem mixHexColors_channel_clamped_formula (bgHex fgHex : String) (ratio : ℚ)
    (br bgc bb fr fgc fb : ℕ)
    (hbg : hexToRgb bgHex = some (br, bgc, bb)) (hfg : hexToRgb fgHex = some (fr, fgc, fb)) :
    mixHexColors bgHex fgHex ratio =
      "#" ++ padStart2 '0' (intToBase 16 (jsRound (max 0 (min 255 (br * (1 - ratio) + fr * ratio)))))
          ++ padStart2 '0' (intToBase 16 (jsRound (max 0 (min 255 (bgc * (1 - ratio) + fgc * ratio)))))
          ++ padStart2 '0' (intToBase 16 (jsRound (max 0 (min 255 (bb * (1 - ratio) + fb * ratio))))) := by
  rw [mixHexColors_parsed bgHex fgHex ratio br bgc bb fr fgc fb hbg hfg]
  rfl

/-- C1 witness: the amended channel formula, instantiated at
`bg = #000000`, `fg = #ffffff`, `ratio = 2`. -/
theorem mixHexColors_channel_clamped_formula_witness :
    hexToRgb "#000000" = some (0, 0, 0) ∧ hexToRgb "#ffffff" = some (255, 255, 255) ∧
    mixHexColors "#000000" "#ffffff" 2 =
      "#" ++ padStart2 '0' (intToBase 16 (jsRound (max 0 (min 255 (((0:ℕ):ℚ) * (1 - 2) + ((255:ℕ):ℚ) * 2)))))
          ++ padStart2 '0' (intToBase 16 (jsRound (max 0 (min 255 (((0:ℕ):ℚ) * (1 - 2) + ((255:ℕ):ℚ) * 2)))))
          ++ padStart2 '0' (intToBase 16 (jsRound (max 0 (min 255 (((0:ℕ):ℚ) * (1 - 2) + ((255:ℕ):ℚ) * 2))))) :=
  ⟨rfl, rfl, mixHexColors_channel_clamped_formula "#000000" "#ffffff" 2 0 0 0 255 255 255 rfl rfl⟩

/-! ## Claim C6 -/

/-- C6 counterexample: `#3B82F6` is a well-formed 6-digit hex color, but
`mixHexColors("#3B82F6", fg, 0)` returns the lowercase rendering
`#3b82f6`, not the input string: the endpoint identity fails on
well-formed inputs that are not in canonical lowercase form. -/
theorem mixHexColors_endpoint_not_exact_uppercase :
    mixHexColors "#3B82F6" "#000000" 0 = "#3b82f6" ∧
    mixHexColors "#3B82F6" "#000000" 0 ≠ "#3B82F6" := by
  have h1 : mixHexColors "#3B82F6" "#000000" 0 = "#3b82f6" := by
    rw [mixHexColors_parsed "#3B82F6" "#000000" 0 59 130 246 0 0 0 rfl rfl]
    have e1 : ((59:ℕ) : ℚ) * (1 - 0) + ((0:ℕ) : ℚ) * 0 = ((59:ℕ) : ℚ) := by ring
    have e2 : ((130:ℕ) : ℚ) * (1 - 0) + ((0:ℕ) : ℚ) * 0 = ((130:ℕ) : ℚ) := by ring
    have e3 : ((246:ℕ) : ℚ) * (1 - 0) + ((0:ℕ) : ℚ) * 0 = ((246:ℕ) : ℚ) := by ring
    rw [e1, e2, e3, rgbToHex]
    have clamp : ∀ (n : ℕ), n ≤ 255 → toHexClamped n = padStart2 '0' (intToBase 16 (n : ℤ)) := by
      intro n hn
      rw [toHexClamped]
      rw [min_eq_right (by exact_mod_cast hn : (n:ℚ) ≤ 255),
        max_eq_right (by positivity : (0:ℚ) ≤ (n:ℚ)), jsRound_natCast]
    rw [clamp 59 (by norm_num), clamp 130 (by norm_num), clamp 246 (by norm_num)]
    rfl
  exact ⟨h1, by rw [h1]; decide⟩

/-- C6 (amended): for colors in the canonical form `rgbToHex` itself
produces — `#` followed by six lowercase hex digits — both endpoints are
exact: ratio 0 returns the background and ratio 1 the foreground, as
string equalities. -/
theorem mixHexColors_endpoints_exact (r1 g1 b1 r2 g2 b2 : ℕ)
    (h1 : r1 ≤ 255) (h2 : g1 ≤ 255) (h3 : b1 ≤ 255)
    (h4 : r2 ≤ 255) (h5 : g2 ≤ 255) (h6 : b2 ≤ 255) :
    mixHexColors (rgbToHex r1 g1 b1) (rgbToHex r2 g2 b2) 0 = rgbToHex r1 g1 b1 ∧
    mixHexColors (rgbToHex r1 g1 b1) (rgbToHex r2 g2 b2) 1 = rgbToHex r2 g2 b2 := by
  have hbg := hexToRgb_rgbToHex r1 g1 b1 h1 h2 h3
  have hfg := hexToRgb_rgbToHex r2 g2 b2 h4 h5 h6
  constructor
  · rw [mixHexColors_parsed _ _ 0 r1 g1 b1 r2 g2 b2 hbg hfg]
    have e : ∀ (a b : ℕ), ((a:ℚ) * (1 - 0) + (b:ℚ) * 0) = (a:ℚ) := fun a b => by ring
    rw [e r1 r2, e g1 g2, e b1 b2]
  · rw [mixHexColors_parsed _ _ 1 r1 g1 b1 r2 g2 b2 hbg hfg]
    have e : ∀ (a b : ℕ), ((a:ℚ) * (1 - 1) + (b:ℚ) * 1) = (b:ℚ) := fun a b => by ring
    rw [e r1 r2, e g1 g2, e b1 b2]

/-- C6 witness: endpoints exact at the concrete canonical pair
`rgbToHex 59 130 246` and `rgbToHex 1 2 3`. -/
theorem mixHexColors_endpoints_exact_witness :
    (59:ℕ) ≤ 255 ∧
    (mixHexColors (rgbToHex 59 130 246) (rgbToHex 1 2 3) 0 = rgbToHex 59 130 246 ∧
     mixHexColors (rgbToHex 59 130 246) (rgbToHex 1 2 3) 1 = rgbToHex 1 2 3) :=
  ⟨by norm_num,
   mixHexColors_endpoints_exact 59 130 246 1 2 3 (by norm_num) (by norm_num) (by norm_num)
     (by norm_num) (by norm_num) (by norm_num)⟩

/-! ## Claim C7 -/

/-- C7: `getSeriesColor 0 A B = A` for every accent string `A` and every
optional background `B` — index 0 always resolves to the accent itself,
never a derived shade. -/
theorem getSeriesColor_zero_is_accent (accentColor : String) (bgColor : Option String) :
    getSeriesColor 0 accentColor bgColor = accentColor := by
  rfl

/-! ## Claim C5 -/

/-- The source's double-wrap `((x % 360) + 360) % 360` lands in `[0, 360)`
for every rational `x`. -/
theorem jsMod_wrap360_bounds (x : ℚ) :
    0 ≤ jsMod (jsMod x 360 + 360) 360 ∧ jsMod (jsMod x 360 + 360) 360 < 360 := by
  have b1 := jsMod_bounds x 360 (by norm_num)
  exact jsMod_nonneg_bounds _ 360 (by norm_num) (by linarith [b1.1])

theorem hexToHsl_isSome (hex : String) (t : ℕ × ℕ × ℕ) (hp : hexToRgb hex = some t) :
    ∃ u, hexToHsl hex = some u := by
  obtain ⟨r8, g8, b8⟩ := t
  unfold hexToHsl
  rw [hp]
  dsimp only
  split <;> exact ⟨_, rfl⟩

theorem seriesHSL_isSome (index : ℕ) (accentColor : String) (bgColor : Option String)
    (u : ℚ × ℚ × ℚ) (hp : hexToHsl accentColor = some u) :
    ∃ v, seriesHSL index accentColor bgColor = some v := by
  obtain ⟨h0, s0, l0⟩ := u
  unfold seriesHSL
  rw [hp]
  exact ⟨_, rfl⟩

/-- C5: for every `index > 0`, every accent and every optional
background, the lightness `getSeriesColor` hands to `hslToHex` lies in
`[25, 78]` (dark branch `max(25, 48 - 13·tier)`, light branch
`min(78, 55 + 11·tier)`, `tier = ceil(index/2) ≥ 1`), and the hue lies in
`[0, 360)` after the double modulo-360 wrap. -/
theorem seriesHSL_lightness_hue_bounds (index : ℕ) (accentColor : String)
    (bgColor : Option String) (hidx : 0 < index) (h s l : ℚ)
    (hout : seriesHSL index accentColor bgColor = some (h, s, l)) :
    (25 ≤ l ∧ l ≤ 78) ∧ 0 ≤ h ∧ h < 360 := by
  unfold seriesHSL at hout
  rcases hh : hexToHsl accentColor with _ | ⟨h0, s0, l0⟩
  · rw [hh] at hout; exact absurd hout (by simp)
  · rw [hh] at hout
    simp only [Option.some.injEq, Prod.mk.injEq] at hout
    obtain ⟨hH, _, hL⟩ := hout
    have htier : (1:ℚ) ≤ (((index + 1) / 2 : ℕ) : ℚ) := by
      have h1 : 1 ≤ (index + 1) / 2 := by omega
      exact_mod_cast h1
    constructor
    · rw [← hL]
      constructor
      · split
        · exact le_max_left _ _
        · exact le_min (by norm_num) (by linarith)
      · split
        · exact max_le (by norm_num) (by linarith)
        · exact min_le_left _ _
    · rw [← hH]
      exact jsMod_wrap360_bounds _

/-- C5 witness: the bounds applied at index 1, accent `#3b82f6`, no
background; the triple is not vacuous (`seriesHSL` is `some` there). -/
theorem seriesHSL_lightness_hue_bounds_witness :
    0 < 1 ∧ (∃ v, seriesHSL 1 "#3b82f6" none = some v) ∧
    (∀ (h s l : ℚ), seriesHSL 1 "#3b82f6" none = some (h, s, l) →
      (25 ≤ l ∧ l ≤ 78) ∧ 0 ≤ h ∧ h < 360) := by
  refine ⟨by norm_num, ?_, fun h s l hout =>
    seriesHSL_lightness_hue_bounds 1 "#3b82f6" none (by norm_num) h s l hout⟩
  obtain ⟨u, hu⟩ := hexToHsl_isSome "#3b82f6" (59, 130, 246) rfl
  exact seriesHSL_isSome 1 "#3b82f6" none u hu

/-! ## Natural cubic spline (src: xy-renderer.ts, `smoothCurvePath`)

The point sequence is a `List (ℚ × ℚ)`; accessors mirror the source's
indexing (all indices used by the algorithm stay in range, so the
`getD` default is never observed). -/

/-- `points[i].x`. -/
def px (ps : List (ℚ × ℚ)) (i : ℕ) : ℚ := (ps.getD i (0, 0)).1

/-- `points[i].y`. -/
def py (ps : List (ℚ × ℚ)) (i : ℕ) : ℚ := (ps.getD i (0, 0)).2

/-- Interval widths `h[i] = x[i+1] - x[i]` (source array `h`). -/
def hw (ps : List (ℚ × ℚ)) (i : ℕ) : ℚ := px ps (i+1) - px ps i

/-- Secant slopes `delta[i]`, zero on a duplicate x (avoids division by
zero). -/
def secant (ps : List (ℚ × ℚ)) (i : ℕ) : ℚ :=
  if hw ps i = 0 then 0 else (py ps (i+1) - py ps i) / hw ps i

/-- Forward elimination of the Thomas algorithm: the pair
`(cp[i], dp[i])` of modified upper diagonal and right-hand side, exactly
as the source's loop over `i = 1 .. n-2` computes them (values at indices
the loop never reaches are never consumed). -/
def cpdp (ps : List (ℚ × ℚ)) : ℕ → ℚ × ℚ
  | 0 => (0, 0)
  | 1 =>
    let diag := 2 * (hw ps 0 + hw ps 1)
    let rhs := 3 * (secant ps 1 - secant ps 0)
    (hw ps 1 / diag, rhs / diag)
  | i + 2 =>
    let diag := 2 * (hw ps (i+1) + hw ps (i+2))
    let rhs := 3 * (secant ps (i+2) - secant ps (i+1))
    let prev := cpdp ps (i+1)
    let w := diag - hw ps (i+1) * prev.1
    (hw ps (i+2) / w, (rhs - hw ps (i+1) * prev.2) / w)

/-- Back substitution: second-derivative coefficients `c[i]`, with the
natural boundary `c[0] = c[n-1] = 0` and every index outside the solved
band `1 .. n-2` staying at the source's zero fill. -/
def ccoef (ps : List (ℚ × ℚ)) (i : ℕ) : ℚ :=
  if _h : i = 0 ∨ ps.length - 1 ≤ i then 0
  else (cpdp ps i).2 - (cpdp ps i).1 * ccoef ps (i+1)
  termination_by ps.length - 1 - i
  decreasing_by omega

/-- Knot slopes: the source fills `slopes[i]` for `i < n-1` from
`delta[i] - h[i]*(2c[i]+c[i+1])/3` and then overwrites the final entry
with `delta[n-2] + h[n-2]*c[n-2]/3`. -/
def slopeAt (ps : List (ℚ × ℚ)) (i : ℕ) : ℚ :=
  if i = ps.length - 1 then
    secant ps (ps.length - 2) + hw ps (ps.length - 2) * ccoef ps (ps.length - 2) / 3
  else secant ps i - hw ps i * (2 * ccoef ps i + ccoef ps (i+1)) / 3

/-- A cubic Bezier segment by its four control points. -/
structure Cubic where
  p0 : ℚ × ℚ
  p1 : ℚ × ℚ
  p2 : ℚ × ℚ
  p3 : ℚ × ℚ

/-- The `i`-th emitted Bezier segment: control abscissas one third into
the interval, ordinates extrapolated along the knot slopes. -/
def bezSeg (ps : List (ℚ × ℚ)) (i : ℕ) : Cubic :=
  let seg := hw ps i / 3
  { p0 := (px ps i, py ps i)
    p1 := (px ps i + seg, py ps i + slopeAt ps i * seg)
    p2 := (px ps (i+1) - seg, py ps (i+1) - slopeAt ps (i+1) * seg)
    p3 := (px ps (i+1), py ps (i+1)) }

/-- The formatted coordinates of one ` C` command (after the command
letter). -/
def segBody (ps : List (ℚ × ℚ)) (i : ℕ) : String :=
  rstr (bezSeg ps i).p1.1 ++ "," ++ rstr (bezSeg ps i).p1.2 ++ " " ++
    rstr (bezSeg ps i).p2.1 ++ "," ++ rstr (bezSeg ps i).p2.2 ++ " " ++
    rstr (bezSeg ps i).p3.1 ++ "," ++ rstr (bezSeg ps i).p3.2

/-- One ` C...` Bezier command string. -/
def segStr (ps : List (ℚ × ℚ)) (i : ℕ) : String := " C" ++ segBody ps i

/-- Concatenation of path fragments (the source's `path +=` loop). -/
def strConcat (l : List String) : String := l.foldr (· ++ ·) ""

/-- `smoothCurvePath`: empty, single move, straight line, or a move plus
one cubic command per interval. -/
def smoothCurvePath (ps : List (ℚ × ℚ)) : String :=
  match ps with
  | [] => ""
  | [p] => "M" ++ rstr p.1 ++ "," ++ rstr p.2
  | [p, q] => "M" ++ rstr p.1 ++ "," ++ rstr p.2 ++ " L" ++ rstr q.1 ++ "," ++ rstr q.2
  | _ :: _ :: _ :: _ =>
    "M" ++ rstr (px ps 0) ++ "," ++ rstr (py ps 0) ++
      strConcat ((List.range (ps.length - 1)).map (segStr ps))

/-- Parametric x-derivative of a cubic Bezier at parameter `t`. -/
def bezDX (c : Cubic) (t : ℚ) : ℚ :=
  3 * (1 - t)^2 * (c.p1.1 - c.p0.1) + 6 * (1 - t) * t * (c.p2.1 - c.p1.1) +
    3 * t^2 * (c.p3.1 - c.p2.1)

/-- Parametric y-derivative of a cubic Bezier at parameter `t`. -/
def bezDY (c : Cubic) (t : ℚ) : ℚ :=
  3 * (1 - t)^2 * (c.p1.2 - c.p0.2) + 6 * (1 - t) * t * (c.p2.2 - c.p1.2) +
    3 * t^2 * (c.p3.2 - c.p2.2)

/-- The slope `dy/dx` of a cubic Bezier at parameter `t`. -/
def bezSlope (c : Cubic) (t : ℚ) : ℚ := bezDY c t / bezDX c t

/-! ## Claim C3 -/

/-- C3: for at least three points with strictly increasing x, at every
interior knot `i` the two adjacent emitted Bezier segments share the knot
point exactly, and both their `dy/dx` derivatives at the knot equal the
computed knot slope `slope[i]` — C¹ continuity in exact arithmetic. -/
theorem smoothCurvePath_C1_continuity (ps : List (ℚ × ℚ)) (hn : 3 ≤ ps.length)
    (hmono : ∀ i, i < ps.length - 1 → px ps i < px ps (i+1))
    (i : ℕ) (hi1 : 1 ≤ i) (hi2 : i ≤ ps.length - 2) :
    (bezSeg ps (i-1)).p3 = (px ps i, py ps i) ∧
    (bezSeg ps i).p0 = (px ps i, py ps i) ∧
    bezSlope (bezSeg ps (i-1)) 1 = slopeAt ps i ∧
    bezSlope (bezSeg ps i) 0 = slopeAt ps i := by
  obtain ⟨j, rfl⟩ : ∃ j, i = j + 1 := ⟨i - 1, by omega⟩
  have hj : j < ps.length - 1 := by omega
  have hj1 : j + 1 < ps.length - 1 := by omega
  have hwj : 0 < hw ps j := by
    have := hmono j hj
    unfold hw
    linarith
  have hwj1 : 0 < hw ps (j+1) := by
    have := hmono (j+1) hj1
    unfold hw
    linarith
  have hsub : j + 1 - 1 = j := by omega
  rw [hsub]
  refine ⟨rfl, rfl, ?_, ?_⟩
  · have hdx : bezDX (bezSeg ps j) 1 = hw ps j := by
      simp only [bezDX, bezSeg]
      ring
    have hdy : bezDY (bezSeg ps j) 1 = slopeAt ps (j+1) * hw ps j := by
      simp only [bezDY, bezSeg]
      ring
    rw [bezSlope, hdx, hdy, mul_div_assoc, div_self hwj.ne', mul_one]
  · have hdx : bezDX (bezSeg ps (j+1)) 0 = hw ps (j+1) := by
      simp only [bezDX, bezSeg]
      ring
    have hdy : bezDY (bezSeg ps (j+1)) 0 = slopeAt ps (j+1) * hw ps (j+1) := by
      simp only [bezDY, bezSeg]
      ring
    rw [bezSlope, hdx, hdy, mul_div_assoc, div_self hwj1.ne', mul_one]

/-- C3 witness: C¹ continuity at the interior knot of the concrete
three-point sequence `(0,0), (1,1), (2,0)`. -/
theorem smoothCurvePath_C1_continuity_witness :
    (∀ i, i < ([((0:ℚ), (0:ℚ)), (1, 1), (2, 0)] : List (ℚ × ℚ)).length - 1 →
      px [((0:ℚ), (0:ℚ)), (1, 1), (2, 0)] i < px [((0:ℚ), (0:ℚ)), (1, 1), (2, 0)] (i+1)) ∧
    ((bezSeg [((0:ℚ), (0:ℚ)), (1, 1), (2, 0)] 0).p3 =
        (px [((0:ℚ), (0:ℚ)), (1, 1), (2, 0)] 1, py [((0:ℚ), (0:ℚ)), (1, 1), (2, 0)] 1) ∧
      (bezSeg [((0:ℚ), (0:ℚ)), (1, 1), (2, 0)] 1).p0 =
        (px [((0:ℚ), (0:ℚ)), (1, 1), (2, 0)] 1, py [((0:ℚ), (0:ℚ)), (1, 1), (2, 0)] 1) ∧
      bezSlope (bezSeg [((0:ℚ), (0:ℚ)), (1, 1), (2, 0)] 0) 1 =
        slopeAt [((0:ℚ), (0:ℚ)), (1, 1), (2, 0)] 1 ∧
      bezSlope (bezSeg [((0:ℚ), (0:ℚ)), (1, 1), (2, 0)] 1) 0 =
        slopeAt [((0:ℚ), (0:ℚ)), (1, 1), (2, 0)] 1) := by
  have hmono : ∀ i, i < ([((0:ℚ), (0:ℚ)), (1, 1), (2, 0)] : List (ℚ × ℚ)).length - 1 →
      px [((0:ℚ), (0:ℚ)), (1, 1), (2, 0)] i < px [((0:ℚ), (0:ℚ)), (1, 1), (2, 0)] (i+1) := by
    intro i hi
    simp only [List.length_cons, List.length_nil] at hi
    interval_cases i <;> norm_num [px, List.getD]
  exact ⟨hmono, smoothCurvePath_C1_continuity _ (by norm_num) hmono 1 (by norm_num) (by norm_num)⟩

/-! ## Claim C4 -/

/-- C4: the case analysis of `smoothCurvePath` — empty output for no
points, a single move for one point, move plus one line for two points,
and for `n ≥ 3` a move to the first point followed by exactly `n - 1`
cubic Bezier commands. -/
theorem smoothCurvePath_cases (ps : List (ℚ × ℚ)) :
    (ps = [] → smoothCurvePath ps = "") ∧
    (∀ p, ps = [p] → smoothCurvePath ps = "M" ++ rstr p.1 ++ "," ++ rstr p.2) ∧
    (∀ p q, ps = [p, q] → smoothCurvePath ps =
      "M" ++ rstr p.1 ++ "," ++ rstr p.2 ++ " L" ++ rstr q.1 ++ "," ++ rstr q.2) ∧
    (3 ≤ ps.length → ∃ cmds : List String,
      smoothCurvePath ps =
        "M" ++ rstr (px ps 0) ++ "," ++ rstr (py ps 0) ++ strConcat cmds ∧
      cmds.length = ps.length - 1 ∧
      ∀ c ∈ cmds, ∃ rest, c = " C" ++ rest) := by
  refine ⟨?_, ?_, ?_, ?_⟩
  · rintro rfl; rfl
  · rintro p rfl; rfl
  · rintro p q rfl; rfl
  · intro h3
    match ps, h3 with
    | p1 :: p2 :: p3 :: rest, _ =>
      refine ⟨(List.range ((p1 :: p2 :: p3 :: rest).length - 1)).map (segStr (p1 :: p2 :: p3 :: rest)),
        rfl, by simp, ?_⟩
      intro c hc
      simp only [List.mem_map] at hc
      obtain ⟨i, _, rfl⟩ := hc
      exact ⟨segBody (p1 :: p2 :: p3 :: rest) i, rfl⟩

/-- C4 witness: the `n ≥ 3` branch at the concrete three-point sequence
`(0,0), (1,1), (2,0)` — a move plus exactly two cubic commands. -/
theorem smoothCurvePath_cases_witness :
    3 ≤ ([((0:ℚ), (0:ℚ)), (1, 1), (2, 0)] : List (ℚ × ℚ)).length ∧
    ∃ cmds : List String,
      smoothCurvePath [((0:ℚ), (0:ℚ)), (1, 1), (2, 0)] =
        "M" ++ rstr (px [((0:ℚ), (0:ℚ)), (1, 1), (2, 0)] 0) ++ "," ++
          rstr (py [((0:ℚ), (0:ℚ)), (1, 1), (2, 0)] 0) ++ strConcat cmds ∧
      cmds.length = ([((0:ℚ), (0:ℚ)), (1, 1), (2, 0)] : List (ℚ × ℚ)).length - 1 ∧
      ∀ c ∈ cmds, ∃ rest, c = " C" ++ rest :=
  ⟨by norm_num, (smoothCurvePath_cases [((0:ℚ), (0:ℚ)), (1, 1), (2, 0)]).2.2.2 (by norm_num)⟩

/-! ## Bar paths (src: xy-renderer.ts, `roundedTopBarPath` /
`roundedRightBarPath`) -/

/-- `Array.prototype.join(sep)`. -/
def joinSep (sep : String) : List String → String
  | [] => ""
  | [s] => s
  | s :: rest => s ++ sep ++ joinSep sep rest

/-- Bar path for vertical bars: effective radius
`rr = min(radius, w/2, h/2)`; rectangle fallback when `rr ≤ 0`, else all
four corners rounded with quadratic curves, starting below the top-left
corner and proceeding clockwise. -/
def roundedTopBarPath (x y w h radius : ℚ) : String :=
  if min radius (min (w / 2) (h / 2)) ≤ 0 then
    "M" ++ rstr x ++ "," ++ rstr y ++ " h" ++ rstr w ++ " v" ++ rstr h ++
      " h" ++ rstr (-w) ++ " Z"
  else
    let rr := min radius (min (w / 2) (h / 2))
    joinSep " "
      [ "M" ++ rstr x ++ "," ++ rstr (y + rr)
      , "Q" ++ rstr x ++ "," ++ rstr y ++ " " ++ rstr (x + rr) ++ "," ++ rstr y
      , "L" ++ rstr (x + w - rr) ++ "," ++ rstr y
      , "Q" ++ rstr (x + w) ++ "," ++ rstr y ++ " " ++ rstr (x + w) ++ "," ++ rstr (y + rr)
      , "L" ++ rstr (x + w) ++ "," ++ rstr (y + h - rr)
      , "Q" ++ rstr (x + w) ++ "," ++ rstr (y + h) ++ " " ++ rstr (x + w - rr) ++ "," ++ rstr (y + h)
      , "L" ++ rstr (x + rr) ++ "," ++ rstr (y + h)
      , "Q" ++ rstr x ++ "," ++ rstr (y + h) ++ " " ++ rstr x ++ "," ++ rstr (y + h - rr)
      , "Z" ]

/-- Bar path for horizontal bars: same effective radius and fallback,
but starting after the top-left corner and closing back through the left
edge. -/
def roundedRightBarPath (x y w h radius : ℚ) : String :=
  if min radius (min (w / 2) (h / 2)) ≤ 0 then
    "M" ++ rstr x ++ "," ++ rstr y ++ " h" ++ rstr w ++ " v" ++ rstr h ++
      " h" ++ rstr (-w) ++ " Z"
  else
    let rr := min radius (min (w / 2) (h / 2))
    joinSep " "
      [ "M" ++ rstr (x + rr) ++ "," ++ rstr y
      , "L" ++ rstr (x + w - rr) ++ "," ++ rstr y
      , "Q" ++ rstr (x + w) ++ "," ++ rstr y ++ " " ++ rstr (x + w) ++ "," ++ rstr (y + rr)
      , "L" ++ rstr (x + w) ++ "," ++ rstr (y + h - rr)
      , "Q" ++ rstr (x + w) ++ "," ++ rstr (y + h) ++ " " ++ rstr (x + w - rr) ++ "," ++ rstr (y + h)
      , "L" ++ rstr (x + rr) ++ "," ++ rstr (y + h)
      , "Q" ++ rstr x ++ "," ++ rstr (y + h) ++ " " ++ rstr x ++ "," ++ rstr (y + h - rr)
      , "L" ++ rstr x ++ "," ++ rstr (y + rr)
      , "Q" ++ rstr x ++ "," ++ rstr y ++ " " ++ rstr (x + rr) ++ "," ++ rstr y
      , "Z" ]

/-! ## Claim C8 -/

/-- C8: whenever the effective radius `min(radius, w/2, h/2)` is ≤ 0 (in
particular for any requested radius ≤ 0), both bar path builders return
the identical 4-command axis-aligned rectangle path
`M x,y h w v h h -w Z`. -/
theorem barPath_rect_fallback (x y w h radius : ℚ)
    (hrr : min radius (min (w / 2) (h / 2)) ≤ 0) :
    roundedTopBarPath x y w h radius =
      "M" ++ rstr x ++ "," ++ rstr y ++ " h" ++ rstr w ++ " v" ++ rstr h ++
        " h" ++ rstr (-w) ++ " Z" ∧
    roundedRightBarPath x y w h radius = roundedTopBarPath x y w h radius := by
  constructor
  · rw [roundedTopBarPath, if_pos hrr]
  · rw [roundedRightBarPath, roundedTopBarPath, if_pos hrr, if_pos hrr]

/-- C8 witness: the rectangle fallback at `x=1, y=2, w=3, h=4` with
requested radius 0. -/
theorem barPath_rect_fallback_witness :
    min (0:ℚ) (min (3 / 2) (4 / 2)) ≤ 0 ∧
    (roundedTopBarPath 1 2 3 4 0 =
      "M" ++ rstr 1 ++ "," ++ rstr 2 ++ " h" ++ rstr 3 ++ " v" ++ rstr 4 ++
        " h" ++ rstr (-3) ++ " Z" ∧
     roundedRightBarPath 1 2 3 4 0 = roundedTopBarPath 1 2 3 4 0) :=
  ⟨by norm_num, barPath_rect_fallback 1 2 3 4 0 (by norm_num)⟩

/-! ## Adaptive dot grid (src: xy-renderer.ts, step 1 of
`renderXYChartSvg`) -/

/-- The plot area rectangle. -/
structure PlotArea where
  x : ℚ
  y : ℚ
  width : ℚ
  height : ℚ

/-- Base spacing on one axis: distance between the first two tick
coordinates, falling back to the plot dimension over 6. -/
def baseGap (vals : List ℚ) (dim : ℚ) : ℚ :=
  match vals with
  | a :: b :: _ => |b - a|
  | _ => dim / 6

/-- Subdivide the base spacing by the nearest whole number of ~20-unit
cells: `base / Math.max(1, Math.round(base / 20))`. -/
def cellGap (base : ℚ) : ℚ := base / max 1 ((jsRound (base / 20) : ℚ))

/-- The grid anchor: the first tick coordinate, else the plot-area edge
(`xTicks[0] ?? plotArea.x`). -/
def anchorOf (vals : List ℚ) (edge : ℚ) : ℚ := vals.headD edge

/-- The loop start: the anchor pulled back by a whole number of cells,
`anchor - Math.ceil((anchor - edge) / gap) * gap`. -/
def gridStart (anchor edge gap : ℚ) : ℚ := anchor - ⌈(anchor - edge) / gap⌉ * gap

/-- One axis of dot coordinates:
`for (v = start; v <= limit; v += gap)`.  The positivity hypothesis is
what makes the loop terminate. -/
def dotAxisAux (gap limit : ℚ) (hg : 0 < gap) (v : ℚ) : List ℚ :=
  if v ≤ limit then v :: dotAxisAux gap limit hg (v + gap) else []
  termination_by (⌈(limit - v) / gap⌉ + 1).toNat
  decreasing_by
    have hne : gap ≠ 0 := hg.ne'
    have h1 : (limit - (v + gap)) / gap = (limit - v) / gap - 1 := by field_simp; ring
    have h2 : (0:ℚ) ≤ (limit - v) / gap := div_nonneg (by linarith) hg.le
    have h3 : (0:ℤ) ≤ ⌈(limit - v) / gap⌉ := Int.ceil_nonneg h2
    rw [h1, Int.ceil_sub_one]
    omega

/-- All dot coordinates of one grid axis.  The gap is an absolute value
divided by a positive count, so it is never negative; it is zero exactly
when the first two ticks coincide or the fallback plot dimension is zero,
and then the JS division by zero makes the start `NaN`, the loop
comparison is false, and no dots are emitted. -/
def dotAxis (anchor edge gap limit : ℚ) : List ℚ :=
  if hg : 0 < gap then dotAxisAux gap limit hg (gridStart anchor edge gap) else []

/-- The full dot grid: the source's row-major nested loop over y then x. -/
def dotGridCoords (xVals yVals : List ℚ) (pa : PlotArea) : List (ℚ × ℚ) :=
  let xGap := cellGap (baseGap xVals pa.width)
  let yGap := cellGap (baseGap yVals pa.height)
  let xs := dotAxis (anchorOf xVals pa.x) pa.x xGap (pa.x + pa.width + 1/2)
  let ys := dotAxis (anchorOf yVals pa.y) pa.y yGap (pa.y + pa.height + 1/2)
  ys.bind (fun yv => xs.map (fun xv => (xv, yv)))

/-- Exact iteration count of the dot loop on one axis. -/
theorem dotAxisAux_length (gap limit : ℚ) (hg : 0 < gap) :
    ∀ (fuel : ℕ) (v : ℚ), (limit - v) / gap < fuel →
      (dotAxisAux gap limit hg v).length =
        if v ≤ limit then (⌊(limit - v) / gap⌋ + 1).toNat else 0 := by
  intro fuel
  induction fuel with
  | zero =>
    intro v hv
    norm_num at hv
    have hnle : ¬ v ≤ limit := by
      intro hle
      have h0 : 0 ≤ (limit - v) / gap := div_nonneg (by linarith) hg.le
      linarith
    rw [dotAxisAux, if_neg hnle, if_neg hnle]
    rfl
  | succ n ih =>
    intro v hv
    rw [dotAxisAux]
    by_cases hle : v ≤ limit
    · rw [if_pos hle, if_pos hle]
      have hne : gap ≠ 0 := hg.ne'
      have harg : (limit - (v + gap)) / gap = (limit - v) / gap - 1 := by field_simp; ring
      have hrec : (limit - (v + gap)) / gap < n := by
        rw [harg]
        push_cast at hv
        linarith
      rw [List.length_cons, ih (v + gap) hrec]
      by_cases hle2 : v + gap ≤ limit
      · rw [if_pos hle2, harg]
        have ht1 : (1:ℚ) ≤ (limit - v) / gap := by
          rw [le_div_iff hg]
          linarith
        have hfl : 1 ≤ ⌊(limit - v) / gap⌋ := Int.le_floor.mpr (by exact_mod_cast ht1)
        rw [show (limit - v) / gap - 1 = (limit - v) / gap - (1:ℤ) by push_cast; ring,
          Int.floor_sub_int]
        omega
      · rw [if_neg hle2]
        have h1 : 0 ≤ (limit - v) / gap := div_nonneg (by linarith) hg.le
        have h2 : (limit - v) / gap < 1 := by
          rw [div_lt_one hg]
          linarith
        have hfl : ⌊(limit - v) / gap⌋ = 0 := by
          rw [Int.floor_eq_zero_iff]
          exact ⟨h1, h2⟩
        rw [hfl]
        rfl
    · rw [if_neg hle, if_neg hle]
      rfl

/-- Multiplying out the nested loop. -/
theorem bind_map_length {α β γ : Type} (ys : List α) (xs : List β) (f : α → β → γ) :
    (ys.bind (fun yv => xs.map (f yv))).length = ys.length * xs.length := by
  induction ys with
  | nil => simp
  | cons y ys ih =>
    simp only [List.cons_bind, List.length_append, List.length_map, ih, List.length_cons]
    ring

/-- Closed form for one axis of the grid. -/
theorem dotAxis_length (anchor edge gap limit : ℚ) (hg : 0 < gap) :
    (dotAxis anchor edge gap limit).length =
      if gridStart anchor edge gap ≤ limit
      then (⌊(limit - gridStart anchor edge gap) / gap⌋ + 1).toNat else 0 := by
  rw [dotAxis, dif_pos hg]
  exact dotAxisAux_length gap limit hg
    ((⌊(limit - gridStart anchor edge gap) / gap⌋ + 1).toNat + 1) _
    (by
      have h1 := Int.lt_floor_add_one ((limit - gridStart anchor edge gap) / gap)
      have h2 : (⌊(limit - gridStart anchor edge gap) / gap⌋ + 1 : ℤ) ≤
          ((⌊(limit - gridStart anchor edge gap) / gap⌋ + 1).toNat + 1 : ℤ) := by omega
      calc (limit - gridStart anchor edge gap) / gap
          < (⌊(limit - gridStart anchor edge gap) / gap⌋ + 1 : ℤ) := by exact_mod_cast h1
        _ ≤ (((⌊(limit - gridStart anchor edge gap) / gap⌋ + 1).toNat + 1 : ℕ) : ℚ) := by
            exact_mod_cast h2)

/-- Every multiple of the gap above the start that stays at or below the
limit is visited by the loop. -/
theorem dotAxisAux_mem (gap limit : ℚ) (hg : 0 < gap) :
    ∀ (m : ℕ) (v : ℚ), v + m * gap ≤ limit → v + m * gap ∈ dotAxisAux gap limit hg v := by
  intro m
  induction m with
  | zero =>
    intro v hle
    norm_num at hle ⊢
    rw [dotAxisAux, if_pos hle]
    exact List.mem_cons_self _ _
  | succ n ih =>
    intro v hle
    have hv : v ≤ limit := by
      have : (0:ℚ) ≤ (n + 1 : ℕ) * gap := by positivity
      linarith
    rw [dotAxisAux, if_pos hv]
    have harg : (v + gap) + n * gap = v + (n + 1 : ℕ) * gap := by push_cast; ring
    have := ih (v + gap) (by rw [harg]; exact hle)
    rw [harg] at this
    exact List.mem_cons_of_mem _ this

/-! ## Claim C9 -/

/-- C9: for a positive gap the loop start lies at or before the plot-area
edge, the anchor sits an exact integer number of cells above the start,
and whenever the anchor is inside the scanned range the emitted lattice
contains a dot exactly at the anchor (the first tick position). -/
theorem gridStart_aligned (anchor edge gap limit : ℚ) (hg : 0 < gap) :
    gridStart anchor edge gap ≤ edge ∧
    (∃ k : ℤ, anchor - gridStart anchor edge gap = k * gap) ∧
    (edge ≤ anchor → anchor ≤ limit → anchor ∈ dotAxis anchor edge gap limit) := by
  have hceil : (anchor - edge) / gap ≤ (⌈(anchor - edge) / gap⌉ : ℚ) := Int.le_ceil _
  have hkey : anchor - edge ≤ (⌈(anchor - edge) / gap⌉ : ℚ) * gap := by
    rw [div_le_iff hg] at hceil
    linarith
  refine ⟨by rw [gridStart]; linarith, ⟨⌈(anchor - edge) / gap⌉, by rw [gridStart]; ring⟩, ?_⟩
  intro hae hal
  have hknn : (0:ℤ) ≤ ⌈(anchor - edge) / gap⌉ :=
    Int.ceil_nonneg (div_nonneg (by linarith) hg.le)
  have hrepr : gridStart anchor edge gap +
      ((⌈(anchor - edge) / gap⌉).toNat : ℚ) * gap = anchor := by
    rw [gridStart]
    have hcast : (((⌈(anchor - edge) / gap⌉).toNat : ℕ) : ℚ) =
        ((⌈(anchor - edge) / gap⌉ : ℤ) : ℚ) := by
      exact_mod_cast Int.toNat_of_nonneg hknn
    rw [hcast]
    ring
  rw [dotAxis, dif_pos hg]
  have := dotAxisAux_mem gap limit hg (⌈(anchor - edge) / gap⌉).toNat
    (gridStart anchor edge gap) (by rw [hrepr]; exact hal)
  rw [hrepr] at this
  exact this

/-- C9 witness: anchor 5, edge 0, gap 2, limit 6 — the start is `-1 ≤ 0`,
the anchor is 3 cells above it, and the dot at the anchor is emitted. -/
theorem gridStart_aligned_witness :
    (0:ℚ) < 2 ∧
    (gridStart 5 0 2 ≤ (0:ℚ) ∧
     (∃ k : ℤ, (5:ℚ) - gridStart 5 0 2 = k * 2) ∧
     ((0:ℚ) ≤ 5 → (5:ℚ) ≤ 6 → (5:ℚ) ∈ dotAxis 5 0 2 6)) :=
  ⟨by norm_num, gridStart_aligned 5 0 2 6 (by norm_num)⟩

/-! ## Claim C2 -/

/-- C2 (amended): the dot-grid double loop always completes: the grid is
the product of the two axis runs, an axis run with positive gap emits
exactly `floor((limit - start)/gap) + 1` dots when the start is within
the limit (and none otherwise), and a zero-or-smaller gap emits no dots
at all.  The per-axis gap is derived from the tick spacing and has no
fixed positive lower bound. -/
theorem dotGrid_terminates_with_count (xVals yVals : List ℚ) (pa : PlotArea) :
    (dotGridCoords xVals yVals pa).length =
      (dotAxis (anchorOf yVals pa.y) pa.y (cellGap (baseGap yVals pa.height))
          (pa.y + pa.height + 1/2)).length *
        (dotAxis (anchorOf xVals pa.x) pa.x (cellGap (baseGap xVals pa.width))
          (pa.x + pa.width + 1/2)).length ∧
    (∀ anchor edge gap limit : ℚ, 0 < gap →
      (dotAxis anchor edge gap limit).length =
        if gridStart anchor edge gap ≤ limit
        then (⌊(limit - gridStart anchor edge gap) / gap⌋ + 1).toNat else 0) ∧
    (∀ anchor edge gap limit : ℚ, gap ≤ 0 → dotAxis anchor edge gap limit = []) := by
  refine ⟨bind_map_length _ _ _, fun anchor edge gap limit hg => dotAxis_length _ _ _ _ hg,
    fun anchor edge gap limit hg => ?_⟩
  rw [dotAxis, dif_neg (by linarith)]

/-- C2 witness: the axis count formula applied at start 0, gap 2,
limit 5/2. -/
theorem dotGrid_terminates_with_count_witness :
    (0:ℚ) < 2 ∧
    (dotAxis 0 0 2 (5/2)).length =
      (if gridStart 0 0 2 ≤ (5/2 : ℚ)
       then (⌊((5/2 : ℚ) - gridStart 0 0 2) / 2⌋ + 1).toNat else 0) :=
  ⟨by norm_num, (dotGrid_terminates_with_count [] [] ⟨0, 0, 0, 0⟩).2.1 0 0 2 (5/2) (by norm_num)⟩

/-- The bound the claim asserts, with the spec's fixed ~20-unit minimum
cell size: at most `(w/20 + 2) * (h/20 + 2)` dots. -/
def claimedDotBound (pa : PlotArea) : ℚ := (pa.width / 20 + 2) * (pa.height / 20 + 2)

/-- C2 counterexample: with the first two x-ticks only `1/10` apart on a
`2 × 2` plot area the grid emits 52 dots, far above the claimed
`(w/20 + 2)(h/20 + 2) = 4.41` bound — there is no fixed minimum cell
size, since the gap equals the tick spacing whenever that is below 10. -/
theorem dotGrid_count_exceeds_claimed_bound :
    (dotGridCoords [0, 1/10] [0, 2] ⟨0, 0, 2, 2⟩).length = 52 ∧
    ¬ (((dotGridCoords [0, 1/10] [0, 2] ⟨0, 0, 2, 2⟩).length : ℚ) ≤
        claimedDotBound ⟨0, 0, 2, 2⟩) := by
  have hxbase : baseGap [0, 1/10] (2:ℚ) = 1/10 := by
    rw [baseGap]
    norm_num
  have hybase : baseGap [0, 2] (2:ℚ) = 2 := by
    rw [baseGap]
    norm_num
  have hr0 : jsRound (1/10/20 : ℚ) = 0 := jsRound_eq _ 0 (by norm_num) (by norm_num)
  have hr1 : jsRound (2/20 : ℚ) = 0 := jsRound_eq _ 0 (by norm_num) (by norm_num)
  have hxgap : cellGap (baseGap [0, 1/10] (2:ℚ)) = 1/10 := by
    rw [hxbase, cellGap, hr0]
    norm_num
  have hygap : cellGap (baseGap [0, 2] (2:ℚ)) = 2 := by
    rw [hybase, cellGap, hr1]
    norm_num
  have hanchx : anchorOf [0, 1/10] (0:ℚ) = 0 := rfl
  have hanchy : anchorOf [0, 2] (0:ℚ) = 0 := rfl
  have hstartx : gridStart 0 0 (1/10) = 0 := by
    rw [gridStart]
    norm_num
  have hstarty : gridStart 0 0 2 = 0 := by
    rw [gridStart]
    norm_num
  have hfx : ⌊((0:ℚ) + 2 + 1/2 - 0) / (1/10)⌋ = 25 := by norm_num
  have hfy : ⌊((0:ℚ) + 2 + 1/2 - 0) / 2⌋ = 1 := by norm_num
  have hxlen : (dotAxis (anchorOf [0, 1/10] (0:ℚ)) 0 (cellGap (baseGap [0, 1/10] (2:ℚ)))
      ((0:ℚ) + 2 + 1/2)).length = 26 := by
    rw [hanchx, hxgap, dotAxis_length 0 0 (1/10) ((0:ℚ) + 2 + 1/2) (by norm_num), hstartx,
      if_pos (by norm_num : (0:ℚ) ≤ 0 + 2 + 1/2), hfx]
    rfl
  have hylen : (dotAxis (anchorOf [0, 2] (0:ℚ)) 0 (cellGap (baseGap [0, 2] (2:ℚ)))
      ((0:ℚ) + 2 + 1/2)).length = 2 := by
    rw [hanchy, hygap, dotAxis_length 0 0 2 ((0:ℚ) + 2 + 1/2) (by norm_num), hstarty,
      if_pos (by norm_num : (0:ℚ) ≤ 0 + 2 + 1/2), hfy]
    rfl
  have hcount : (dotGridCoords [0, 1/10] [0, 2] ⟨0, 0, 2, 2⟩).length = 52 := by
    rw [dotGridCoords]
    rw [bind_map_length]
    rw [show (PlotArea.mk 0 0 2 2).x = 0 from rfl, show (PlotArea.mk 0 0 2 2).y = 0 from rfl,
      show (PlotArea.mk 0 0 2 2).width = 2 from rfl, show (PlotArea.mk 0 0 2 2).height = 2 from rfl]
    rw [hxlen, hylen]
  refine ⟨hcount, ?_⟩
  rw [hcount, claimedDotBound]
  norm_num

/-! ## XML escaping (src: xy-renderer.ts, `escapeXml`) -/

/-- One `.replace(/c/g, ent)` pass: every occurrence of the character
becomes the entity text. -/
def replChar (c : Char) (ent : List Char) (l : List Char) : List Char :=
  l.bind (fun a => if a = c then ent else [a])

/-- `escapeXml`: four sequential global replacements, ampersand first. -/
def escapeXml (s : String) : String :=
  String.mk (replChar '"' ['&', 'q', 'u', 'o', 't', ';']
    (replChar '>' ['&', 'g', 't', ';']
      (replChar '<' ['&', 'l', 't', ';']
        (replChar '&' ['&', 'a', 'm', 'p', ';'] s.data))))

/-- The per-character entity translation the four passes amount to. -/
def xmlEntity (c : Char) : List Char :=
  if c = '&' then ['&', 'a', 'm', 'p', ';']
  else if c = '<' then ['&', 'l', 't', ';']
  else if c = '>' then ['&', 'g', 't', ';']
  else if c = '"' then ['&', 'q', 'u', 'o', 't', ';']
  else [c]

/-! ## Chart data model (src: xy-chart types, fields as consumed by the
renderer) -/

/-- Bar geometry and metadata. -/
structure Bar where
  x : ℚ
  y : ℚ
  width : ℚ
  height : ℚ
  value : ℚ
  label : Option String
  colorIndex : ℕ

/-- One point of a line series. -/
structure LinePoint where
  x : ℚ
  y : ℚ
  value : ℚ
  label : Option String

/-- One line series. -/
structure ChartLine where
  seriesIndex : ℕ
  colorIndex : ℕ
  points : List LinePoint

/-- An axis tick: position, label text and label placement. -/
structure TickT where
  x : ℚ
  y : ℚ
  label : String
  labelX : ℚ
  labelY : ℚ
  textAnchor : String

/-- An axis title (`rotate` is a JS number-or-undefined; 0 is falsy). -/
structure AxisTitle where
  text : String
  x : ℚ
  y : ℚ
  rotate : Option ℚ

/-- An axis: ticks plus optional title. -/
structure Axis where
  ticks : List TickT
  title : Option AxisTitle

/-- A grid line (only its `y1` is consumed by the renderer). -/
structure GridLine where
  y1 : ℚ

/-- The chart title. -/
structure ChartTitle where
  text : String
  x : ℚ
  y : ℚ

/-- The legend entry variant tag (source field `type`). -/
inductive LegendKind
  | bar
  | line

/-- A legend entry. -/
structure LegendItem where
  kind : LegendKind
  seriesIndex : ℕ
  colorIndex : ℕ
  label : String
  x : ℚ
  y : ℚ

/-- Theme colors as consumed by the renderer. -/
structure DiagramColors where
  bg : String
  fg : String
  accent : Option String

/-- The positioned chart model. -/
structure PositionedXYChart where
  width : ℚ
  height : ℚ
  horizontal : Bool
  plotArea : PlotArea
  bars : List Bar
  lines : List ChartLine
  xAxis : Axis
  yAxis : Axis
  legend : List LegendItem
  title : Option ChartTitle
  gridLines : List GridLine

/-- JS truthiness of an optional string (`undefined` and `""` are falsy). -/
def strTruthy : Option String → Bool
  | some s => decide (s ≠ "")
  | none => false

/-- `o || ''`. -/
def orEmpty : Option String → String
  | some s => s
  | none => ""

/-- JS truthiness of an optional number (`undefined` and `0` are falsy). -/
def rotTruthy : Option ℚ → Bool
  | some q => decide (q ≠ 0)
  | none => false

/-- `formatTipValue`: integers with locale grouping, otherwise one decimal
below magnitude 10 and none above. -/
def formatTipValue (v : ℚ) : String :=
  if v.den = 1 then localeInt v.num
  else jsToFixed (if |v| < 10 then 1 else 0) v

/-! ## Tooltips (src: xy-renderer.ts, `tooltipAbove` /
`multiTooltipAbove`).

`est` is the injected text-width estimator.  Modelled from the spec:
`estimateTextWidth` lives in the styles module outside this repository
slice and is consumed as a pure `(text, fontSize, weight) → width`
function; it stays an opaque parameter.  `tshift` likewise stands for the
external `TEXT_BASELINE_SHIFT` constant interpolated into `dy`
attributes. -/

/-- Single-value tooltip: sized from the estimated text width, clamped to
stay below the minimum y, with a bottom-center pointer. -/
def tooltipAbove (est : String → ℚ → ℚ → ℚ) (tshift : String)
    (cx topY : ℚ) (txt : String) : String :=
  let textW := est txt 15 500
  let bgW := textW + 14 * 2
  let bgH : ℚ := 32
  let tipY := max 4 (topY - 12 - bgH - 6)
  let bgX := cx - bgW / 2
  let textX := cx
  let textY := tipY + bgH / 2
  let ptrX := cx
  let ptrY := tipY + bgH
  let ps : ℚ := 6
  let pointer := "<polygon points=\"" ++ rstr (ptrX - ps) ++ "," ++ rstr ptrY ++ " " ++
    rstr (ptrX + ps) ++ "," ++ rstr ptrY ++ " " ++ rstr ptrX ++ "," ++ rstr (ptrY + ps) ++
    "\" class=\"xychart-tip xychart-tip-ptr\"/>"
  "<rect x=\"" ++ rstr bgX ++ "\" y=\"" ++ rstr tipY ++ "\" width=\"" ++ rstr bgW ++
      "\" height=\"" ++ decStr bgH ++ "\" rx=\"8\" class=\"xychart-tip xychart-tip-bg\"/>" ++
    pointer ++
    "<text x=\"" ++ rstr textX ++ "\" y=\"" ++ rstr textY ++ "\" text-anchor=\"middle\" dy=\"" ++
      tshift ++ "\" class=\"xychart-tip xychart-tip-text\">" ++ escapeXml txt ++ "</text>"

/-- One row of a multi-value tooltip (`text` right-aligned, `legendLabel`
left-aligned). -/
structure TipEntry where
  text : String
  legendLabel : String

/-- One rendered row of the multi-value tooltip; `y0` is the heading
baseline and `i` the row index, so the row baseline is `y0 + 20·(i+1)`
exactly as the source's `textY += lineH` accumulation produces. -/
def multiRow (tshift : String) (rowLeft rowRight y0 : ℚ) (ie : ℕ × TipEntry) : String :=
  let textY := y0 + 20 * ((ie.1 : ℚ) + 1)
  "<text x=\"" ++ rstr rowLeft ++ "\" y=\"" ++ rstr textY ++
    "\" text-anchor=\"start\" font-size=\"15\" font-weight=\"500\" dy=\"" ++ tshift ++
    "\" class=\"xychart-tip xychart-tip-text\">" ++ escapeXml ie.2.legendLabel ++ "</text>" ++
  "<text x=\"" ++ rstr rowRight ++ "\" y=\"" ++ rstr textY ++
    "\" text-anchor=\"end\" font-size=\"15\" font-weight=\"500\" dy=\"" ++ tshift ++
    "\" class=\"xychart-tip xychart-tip-text\">" ++ escapeXml ie.2.text ++ "</text>"

/-- Multi-value tooltip: heading row plus one row per entry.  The
`Math.max(...)` spread over row widths is folded with default 0; the one
call site always passes at least two entries, so the JS empty-spread
`-Infinity` case never arises. -/
def multiTooltipAbove (est : String → ℚ → ℚ → ℚ) (tshift : String)
    (cx topY : ℚ) (label : String) (entries : List TipEntry) : String :=
  let lineH : ℚ := 20
  let padY : ℚ := 6
  let labelGap : ℚ := 10
  let headingW := est label 15 600
  let maxRowW := (entries.map (fun e =>
    est e.legendLabel 15 500 + labelGap + est e.text 15 500)).foldr max 0
  let bgW := max headingW maxRowW + 14 * 2
  let bgH := padY + lineH + (entries.length : ℚ) * lineH + padY
  let tipY := max 4 (topY - 12 - bgH - 6)
  let bgX := cx - bgW / 2
  let ptrX := cx
  let ptrY := tipY + bgH
  let ps : ℚ := 6
  let pointer := "<polygon points=\"" ++ rstr (ptrX - ps) ++ "," ++ rstr ptrY ++ " " ++
    rstr (ptrX + ps) ++ "," ++ rstr ptrY ++ " " ++ rstr ptrX ++ "," ++ rstr (ptrY + ps) ++
    "\" class=\"xychart-tip xychart-tip-ptr\"/>"
  let heading := "<text x=\"" ++ rstr cx ++ "\" y=\"" ++ rstr (tipY + padY + lineH / 2) ++
    "\" text-anchor=\"middle\" font-weight=\"600\" font-size=\"15\" dy=\"" ++ tshift ++
    "\" class=\"xychart-tip xychart-tip-text\">" ++ escapeXml label ++ "</text>"
  let rowLeft := bgX + 14
  let rowRight := bgX + bgW - 14
  "<rect x=\"" ++ rstr bgX ++ "\" y=\"" ++ rstr tipY ++ "\" width=\"" ++ rstr bgW ++
      "\" height=\"" ++ decStr bgH ++ "\" rx=\"8\" class=\"xychart-tip xychart-tip-bg\"/>" ++
    pointer ++ heading ++
    strConcat (entries.enum.map (multiRow tshift rowLeft rowRight (tipY + padY + lineH / 2)))

/-! ## Chart CSS (src: xy-renderer.ts, `chartStyles`) -/

/-- The distinct color indices of bars and lines, ascending (a JS `Set`
collects them in insertion order and `[...s].sort((a,b) => a-b)` sorts
numerically; after sorting the insertion order is immaterial). -/
def colorIdxList (chart : PositionedXYChart) : List ℕ :=
  ((chart.bars.map Bar.colorIndex) ++ (chart.lines.map ChartLine.colorIndex)).dedup.insertionSort
    (· ≤ ·)

/-- The two CSS custom-property lines of one color index. -/
def colorVarLines (accentHex : String) (bgColor : Option String) (idx : ℕ) : List String :=
  let value := if idx = 0 then "var(--accent, " ++ CHART_ACCENT_FALLBACK ++ ")"
    else getSeriesColor idx accentHex bgColor
  [ "    --xychart-color-" ++ natToBase 10 idx ++ ": " ++ value ++ ";"
  , "    --xychart-bar-fill-" ++ natToBase 10 idx ++
      ": color-mix(in srgb, var(--bg) 75%, var(--xychart-color-" ++ natToBase 10 idx ++ ") 25%);" ]

/-- The three per-index style rules. -/
def seriesRuleLines (idx : ℕ) : List String :=
  let color := "var(--xychart-color-" ++ natToBase 10 idx ++ ")"
  [ "  .xychart-bar.xychart-color-" ++ natToBase 10 idx ++ " \x7b stroke: " ++ color ++
      "; fill: var(--xychart-bar-fill-" ++ natToBase 10 idx ++ "); \x7d"
  , "  path.xychart-color-" ++ natToBase 10 idx ++ ", line.xychart-color-" ++ natToBase 10 idx ++
      " \x7b stroke: " ++ color ++ "; \x7d"
  , "  circle.xychart-color-" ++ natToBase 10 idx ++ " \x7b fill: " ++ color ++ "; \x7d" ]

/-- `chartStyles`: the `<style>` block (its `defs` output is always the
empty string, which the falsy check in the renderer then drops). -/
def chartStyles (chart : PositionedXYChart) (interactive _sparse : Bool)
    (themeAccent : Option String) (bgColor : Option String) : String :=
  let accentHex := themeAccent.getD CHART_ACCENT_FALLBACK
  let idxs := colorIdxList chart
  let colorVarDefs := idxs.bind (colorVarLines accentHex bgColor)
  let seriesRules := idxs.bind seriesRuleLines
  let tipRules := if interactive then
    "\n  .xychart-tip \x7b opacity: 0; pointer-events: none; \x7d" ++
    "\n  .xychart-tip-bg \x7b fill: var(--_text); filter: drop-shadow(0 1px 3px color-mix(in srgb, var(--fg) 20%, transparent)); \x7d" ++
    "\n  .xychart-tip-text \x7b fill: var(--bg); font-size: 15px; font-weight: 500; \x7d" ++
    "\n  .xychart-tip-ptr \x7b fill: var(--_text); \x7d" ++
    "\n  .xychart-bar-group:hover .xychart-tip,\n  .xychart-dot-group:hover .xychart-tip \x7b opacity: 1; \x7d"
    else ""
  let colorVarsBlock := if colorVarDefs.length > 0 then
    "\n  svg \x7b\n" ++ joinSep "\n" colorVarDefs ++ "\n  \x7d" else ""
  "<style>" ++
    "\n  .xychart-grid \x7b fill: var(--_inner-stroke); stroke: none; opacity: 0.65; \x7d" ++
    "\n  .xychart-bar \x7b stroke-width: 1.5; \x7d" ++
    "\n  .xychart-line \x7b fill: none; stroke-width: 2.5; stroke-linecap: round; stroke-linejoin: round; \x7d" ++
    "\n  .xychart-line-shadow \x7b fill: none; stroke-width: 5; stroke-linecap: round; stroke-linejoin: round; opacity: 0.12; \x7d" ++
    "\n  .xychart-dot \x7b stroke: var(--bg); stroke-width: 2; \x7d" ++
    "\n  .xychart-label \x7b fill: var(--_text-muted); \x7d" ++
    "\n  .xychart-axis-title \x7b fill: var(--_text-sec); \x7d" ++
    "\n  .xychart-title \x7b fill: var(--_text); \x7d" ++ colorVarsBlock ++
    "\n" ++ joinSep "\n" seriesRules ++ tipRules ++ "\n</style>"

/-! ## Renderer sections (src: xy-renderer.ts, `renderXYChartSvg`) -/

/-- `Math.max(0, ...bars.map(ci), ...lines.map(ci))`. -/
def maxColorIdx (chart : PositionedXYChart) : ℕ :=
  ((chart.bars.map Bar.colorIndex) ++ (chart.lines.map ChartLine.colorIndex)).foldr max 0

/-- `Math.max(...lines.map(l => l.points.length), 0)`. -/
def maxLinePoints (chart : PositionedXYChart) : ℕ :=
  (chart.lines.map (fun l => l.points.length)).foldr max 0

/-- Sparse lines (1–12 points at most across all lines) show dots by
default. -/
def sparseOf (chart : PositionedXYChart) : Bool :=
  decide (0 < maxLinePoints chart ∧ maxLinePoints chart ≤ 12)

/-- The x-coordinates feeding the dot grid. -/
def gridXVals (chart : PositionedXYChart) : List ℚ := chart.xAxis.ticks.map TickT.x

/-- The y-coordinates feeding the dot grid: y-axis ticks when horizontal,
else the grid lines. -/
def gridYVals (chart : PositionedXYChart) : List ℚ :=
  if chart.horizontal then chart.yAxis.ticks.map TickT.y else chart.gridLines.map GridLine.y1

/-- Step 1: the background dot-grid circles. -/
def gridSect (chart : PositionedXYChart) : List String :=
  (dotGridCoords (gridXVals chart) (gridYVals chart) chart.plotArea).map
    (fun p => "<circle cx=\"" ++ rstr p.1 ++ "\" cy=\"" ++ rstr p.2 ++
      "\" r=\"1.5\" class=\"xychart-grid\"/>")

/-- The ` data-value="..."` (and optional ` data-label="..."`) attribute
text of a bar or point. -/
def dataAttrs (value : ℚ) (label : Option String) : String :=
  " data-value=\"" ++ decStr value ++ "\"" ++
    (if strTruthy label then " data-label=\"" ++ escapeXml (orEmpty label) ++ "\"" else "")

/-- Step 2 (inline part): one bar `<path>` element. -/
def barFrag (horizontal : Bool) (bar : Bar) : String :=
  "<path d=\"" ++
    (if horizontal then roundedRightBarPath bar.x bar.y bar.width bar.height 8
     else roundedTopBarPath bar.x bar.y bar.width bar.height 8) ++
    "\" class=\"xychart-bar xychart-color-" ++ natToBase 10 bar.colorIndex ++ "\"" ++
    dataAttrs bar.value bar.label ++ "/>"

/-- Step 2 (interactive part): one bar hover group with hit rectangle,
title and tooltip. -/
def barOverlayFrag (est : String → ℚ → ℚ → ℚ) (tshift : String) (bar : Bar) : String :=
  let tipText := formatTipValue bar.value
  let tipTitle := if strTruthy bar.label then orEmpty bar.label ++ ": " ++ tipText else tipText
  let tip := tooltipAbove est tshift (bar.x + bar.width / 2) bar.y tipText
  "<g class=\"xychart-bar-group\">" ++
    "<rect x=\"" ++ rstr bar.x ++ "\" y=\"" ++ rstr bar.y ++ "\" width=\"" ++ rstr bar.width ++
      "\" height=\"" ++ rstr bar.height ++ "\" fill=\"transparent\"/>" ++
    "<title>" ++ escapeXml tipTitle ++ "</title>" ++ tip ++ "</g>"

/-- Step 3: shadow stroke then crisp stroke per nonempty line. -/
def lineSect (chart : PositionedXYChart) : List String :=
  chart.lines.bind (fun ln =>
    if ln.points.isEmpty then []
    else
      let d := smoothCurvePath (ln.points.map (fun p => (p.x, p.y)))
      [ "<path d=\"" ++ d ++ "\" class=\"xychart-line-shadow xychart-color-" ++
          natToBase 10 ln.colorIndex ++ "\" transform=\"translate(0,2)\"/>"
      , "<path d=\"" ++ d ++ "\" class=\"xychart-line xychart-color-" ++
          natToBase 10 ln.colorIndex ++ "\"/>" ])

/-! ## Step 4: dots grouped by rounded x (src: xy-renderer.ts) -/

/-- One grouped dot entry (a point plus its line's series/color). -/
structure DotEntry where
  x : ℚ
  y : ℚ
  value : ℚ
  label : Option String
  seriesIndex : ℕ
  colorIndex : ℕ

/-- `Map.set` on an insertion-ordered association list (overwrite keeps
the original position, as a JS `Map` does). -/
def mapSet (m : List (ℕ × String)) (k : ℕ) (v : String) : List (ℕ × String) :=
  if m.any (fun p => p.1 = k) then m.map (fun p => if p.1 = k then (k, v) else p)
  else m ++ [(k, v)]

/-- The legend-label lookup `seriesIndex → label` built from line legend
entries (later entries overwrite). -/
def lineLegendLabels (legend : List LegendItem) : List (ℕ × String) :=
  legend.foldl (fun m item =>
    match item.kind with
    | .line => mapSet m item.seriesIndex item.label
    | .bar => m) []

/-- `lineLegendLabels.get(si) || Line ${si + 1}` (an empty stored label
is falsy and also falls back). -/
def legendLabelFor (m : List (ℕ × String)) (si : ℕ) : String :=
  match (m.find? (fun p => p.1 = si)).map Prod.snd with
  | some l => if l = "" then "Line " ++ natToBase 10 (si + 1) else l
  | none => "Line " ++ natToBase 10 (si + 1)

/-- Append an entry to its column, keyed by the rounded x string
(insertion-ordered, as a JS `Map` keyed by `r(p.x)`). -/
def colSet (m : List (String × List DotEntry)) (k : String) (e : DotEntry) :
    List (String × List DotEntry) :=
  if m.any (fun p => p.1 = k) then m.map (fun p => if p.1 = k then (p.1, p.2 ++ [e]) else p)
  else m ++ [(k, [e])]

/-- Group all line points into columns by rounded x-coordinate. -/
def buildColumns (lines : List ChartLine) : List (String × List DotEntry) :=
  lines.foldl (fun m ln =>
    ln.points.foldl (fun m2 p =>
      colSet m2 (rstr p.x) ⟨p.x, p.y, p.value, p.label, ln.seriesIndex, ln.colorIndex⟩) m) []

/-- The default entry backing `entries[0]!`; columns are built nonempty,
so it is never observed. -/
def dfltEntry : DotEntry := ⟨0, 0, 0, none, 0, 0⟩

/-- One visible dot `<circle>`. -/
def dotCircle (e : DotEntry) : String :=
  "<circle cx=\"" ++ rstr e.x ++ "\" cy=\"" ++ rstr e.y ++
    "\" r=\"5\" class=\"xychart-dot xychart-color-" ++ natToBase 10 e.colorIndex ++ "\"" ++
    dataAttrs e.value e.label ++ "/>"

/-- One column's output: `(inline fragments, overlay fragments)`.  A
multi-entry interactive column gets one combined hit region and tooltip;
a single interactive entry gets its own group; otherwise the sparse
static dots render inline. -/
def dotColumnFrags (est : String → ℚ → ℚ → ℚ) (tshift : String)
    (m : List (ℕ × String)) (interactive sparse : Bool) (entries : List DotEntry) :
    List String × List String :=
  let e0 := entries.headD dfltEntry
  let cx := e0.x
  let label := orEmpty e0.label
  if interactive ∧ 1 < entries.length then
    let topY := (entries.map DotEntry.y).foldr min e0.y
    let botY := (entries.map DotEntry.y).foldr max e0.y
    let hitArea := "<rect x=\"" ++ rstr (cx - 15) ++ "\" y=\"" ++ rstr (topY - 15) ++
      "\" width=\"" ++ rstr ((15:ℚ) * 2) ++ "\" height=\"" ++ rstr (botY - topY + 15 * 2) ++
      "\" fill=\"transparent\" class=\"xychart-hit\"/>"
    let tipEntries := entries.map (fun e =>
      TipEntry.mk (formatTipValue e.value) (legendLabelFor m e.seriesIndex))
    let tip := multiTooltipAbove est tshift cx (topY - 5) label tipEntries
    let joined := joinSep " · " (tipEntries.map TipEntry.text)
    let titleText := if label = "" then joined else label ++ ": " ++ joined
    ([], ["<g class=\"xychart-dot-group\">" ++ hitArea ++
      strConcat (entries.map dotCircle) ++
      "<title>" ++ escapeXml titleText ++ "</title>" ++ tip ++ "</g>"])
  else if interactive then
    let tipText := formatTipValue e0.value
    let tipTitle := if strTruthy e0.label then orEmpty e0.label ++ ": " ++ tipText else tipText
    let tip := tooltipAbove est tshift cx (e0.y - 5) tipText
    let hitArea := if sparse then
      "<circle cx=\"" ++ rstr cx ++ "\" cy=\"" ++ rstr e0.y ++
        "\" r=\"15\" fill=\"transparent\" class=\"xychart-hit\"/>"
      else ""
    ([], ["<g class=\"xychart-dot-group\">" ++ hitArea ++ dotCircle e0 ++
      "<title>" ++ escapeXml tipTitle ++ "</title>" ++ tip ++ "</g>"])
  else
    (entries.map dotCircle, [])

/-- Step 4 assembled: `(inline static dots, deferred overlay groups)` —
both empty unless interactive or sparse. -/
def dotSects (est : String → ℚ → ℚ → ℚ) (tshift : String)
    (interactive sparse : Bool) (chart : PositionedXYChart) : List String × List String :=
  if interactive || sparse then
    let m := lineLegendLabels chart.legend
    let cols := buildColumns chart.lines
    (cols.bind (fun c => (dotColumnFrags est tshift m interactive sparse c.2).1),
     cols.bind (fun c => (dotColumnFrags est tshift m interactive sparse c.2).2))
  else ([], [])

/-! ## Steps 5–8: labels, titles, legend -/

/-- Step 5: one floating tick label. -/
def tickFrag (tshift : String) (tick : TickT) : String :=
  "<text x=\"" ++ decStr tick.labelX ++ "\" y=\"" ++ decStr tick.labelY ++
    "\" text-anchor=\"" ++ tick.textAnchor ++ "\" font-size=\"14\" font-weight=\"400\" dy=\"" ++
    tshift ++ "\" class=\"xychart-label\">" ++ escapeXml tick.label ++ "</text>"

/-- Step 6: one axis title (with its optional rotation transform). -/
def axisTitleFrag (tshift : String) (t : AxisTitle) : String :=
  let transform := if rotTruthy t.rotate then
    " transform=\"rotate(" ++ decStr (t.rotate.getD 0) ++ "," ++ decStr t.x ++ "," ++
      decStr t.y ++ ")\""
    else ""
  "<text x=\"" ++ decStr t.x ++ "\" y=\"" ++ decStr t.y ++ "\" text-anchor=\"middle\"" ++
    transform ++ " font-size=\"15\" font-weight=\"500\" dy=\"" ++ tshift ++
    "\" class=\"xychart-axis-title\">" ++ escapeXml t.text ++ "</text>"

/-- Step 7: the chart title. -/
def titleFrag (tshift : String) (t : ChartTitle) : String :=
  "<text x=\"" ++ decStr t.x ++ "\" y=\"" ++ decStr t.y ++
    "\" text-anchor=\"middle\" font-size=\"18\" font-weight=\"600\" dy=\"" ++ tshift ++
    "\" class=\"xychart-title\">" ++ escapeXml t.text ++ "</text>"

/-- Step 8: one legend entry — swatch (rect or line) plus label text. -/
def legendFrags (tshift : String) (item : LegendItem) : List String :=
  (match item.kind with
   | .bar =>
     [ "<rect x=\"" ++ decStr item.x ++ "\" y=\"" ++ decStr (item.y - 14 / 2) ++
         "\" width=\"14\" height=\"14\" rx=\"3\" class=\"xychart-bar xychart-color-" ++
         natToBase 10 item.colorIndex ++ "\"/>" ]
   | .line =>
     [ "<line x1=\"" ++ decStr item.x ++ "\" y1=\"" ++ decStr item.y ++
         "\" x2=\"" ++ decStr (item.x + 14) ++ "\" y2=\"" ++ decStr item.y ++
         "\" stroke-width=\"2.5\" stroke-linecap=\"round\" class=\"xychart-legend-line xychart-color-" ++
         natToBase 10 item.colorIndex ++ "\"/>" ]) ++
  [ "<text x=\"" ++ decStr (item.x + 14 + 6) ++ "\" y=\"" ++ decStr item.y ++
      "\" text-anchor=\"start\" font-size=\"14\" font-weight=\"400\" dy=\"" ++ tshift ++
      "\" class=\"xychart-label\">" ++ escapeXml item.label ++ "</text>" ]

/-! ## The assembled renderer -/

/-- All pushed parts in source order.  `svgRoot` is modelled from the
spec: the external `svgOpenTag` of the theme module with the
`data-xychart-colors` attribute stamped in, an opaque function of the
size, colors, transparency and the maximum color index; `styleBlock`
models the external `buildStyleBlock(font, false)`. -/
def renderParts (est : String → ℚ → ℚ → ℚ) (tshift : String)
    (svgRoot : ℚ → ℚ → DiagramColors → Bool → ℕ → String)
    (styleBlock : String → Bool → String)
    (chart : PositionedXYChart) (colors : DiagramColors)
    (font : String) (transparent interactive : Bool) : List String :=
  [ svgRoot chart.width chart.height colors transparent (maxColorIdx chart)
  , styleBlock font false
  , chartStyles chart interactive (sparseOf chart) colors.accent (some colors.bg) ]
  ++ gridSect chart
  ++ chart.bars.map (barFrag chart.horizontal)
  ++ lineSect chart
  ++ (dotSects est tshift interactive (sparseOf chart) chart).1
  ++ chart.xAxis.ticks.map (tickFrag tshift)
  ++ chart.yAxis.ticks.map (tickFrag tshift)
  ++ (match chart.xAxis.title with | some t => [axisTitleFrag tshift t] | none => [])
  ++ (match chart.yAxis.title with | some t => [axisTitleFrag tshift t] | none => [])
  ++ (match chart.title with | some t => [titleFrag tshift t] | none => [])
  ++ chart.legend.bind (legendFrags tshift)
  ++ (if interactive then chart.bars.map (barOverlayFrag est tshift) else [])
  ++ (dotSects est tshift interactive (sparseOf chart) chart).2
  ++ ["</svg>"]

/-- `renderXYChartSvg`: all parts joined by newlines. -/
def renderXYChartSvg (est : String → ℚ → ℚ → ℚ) (tshift : String)
    (svgRoot : ℚ → ℚ → DiagramColors → Bool → ℕ → String)
    (styleBlock : String → Bool → String)
    (chart : PositionedXYChart) (colors : DiagramColors)
    (font : String) (transparent interactive : Bool) : String :=
  joinSep "\n" (renderParts est tshift svgRoot styleBlock chart colors font transparent interactive)

/-! ## Markup-special character count, and text scrubbing

`spc` counts the raw `<`, `>` and `"` characters of a string.  The
anti-injection formalization of escaping: scrubbing every user text field
of a chart (preserving only JS truthiness) never changes the count of raw
markup characters in the rendered document, so text content cannot
contribute any of them. -/

/-- Raw occurrences of `<`, `>` and `"`. -/
def spc (s : String) : ℕ := s.data.count '<' + s.data.count '>' + s.data.count '"'

theorem spc_append (a b : String) : spc (a ++ b) = spc a + spc b := by
  simp only [spc, String.data_append, List.count_append]
  ring

-- `Nat.digitChar` only ever yields `0-9`, `a-f` or `*`.
set_option maxHeartbeats 1000000 in
theorem digitChar_plain (k : ℕ) :
    Nat.digitChar k ≠ '<' ∧ Nat.digitChar k ≠ '>' ∧ Nat.digitChar k ≠ '"' := by
  rcases Nat.lt_or_ge k 16 with h | h
  · interval_cases k <;> exact ⟨by decide, by decide, by decide⟩
  · have hne : ∀ m : ℕ, m < 16 → ¬ k = m := fun m hm hkm => by omega
    have he : Nat.digitChar k = '*' := by
      unfold Nat.digitChar
      rw [if_neg (hne 0 (by norm_num)), if_neg (hne 1 (by norm_num)),
        if_neg (hne 2 (by norm_num)), if_neg (hne 3 (by norm_num)),
        if_neg (hne 4 (by norm_num)), if_neg (hne 5 (by norm_num)),
        if_neg (hne 6 (by norm_num)), if_neg (hne 7 (by norm_num)),
        if_neg (hne 8 (by norm_num)), if_neg (hne 9 (by norm_num)),
        if_neg (hne 10 (by norm_num)), if_neg (hne 11 (by norm_num)),
        if_neg (hne 12 (by norm_num)), if_neg (hne 13 (by norm_num)),
        if_neg (hne 14 (by norm_num)), if_neg (hne 15 (by norm_num))]
    rw [he]
    exact ⟨by decide, by decide, by decide⟩

theorem spc_mk_zero (l : List Char)
    (h : ∀ c ∈ l, c ≠ '<' ∧ c ≠ '>' ∧ c ≠ '"') : spc (String.mk l) = 0 := by
  have d : (String.mk l).data = l := rfl
  simp only [spc, d]
  rw [List.count_eq_zero.mpr (fun hm => (h _ hm).1 rfl),
    List.count_eq_zero.mpr (fun hm => (h _ hm).2.1 rfl),
    List.count_eq_zero.mpr (fun hm => (h _ hm).2.2 rfl)]

theorem digitsAux_chars (base : ℕ) :
    ∀ (fuel n : ℕ), ∀ c ∈ digitsAux base fuel n, ∃ k, c = Nat.digitChar k := by
  intro fuel
  induction fuel with
  | zero => intro n c hc; simp [digitsAux] at hc
  | succ f ih =>
    intro n c hc
    rw [digitsAux] at hc
    split at hc
    · simp only [List.mem_singleton] at hc
      exact ⟨n, hc⟩
    · rw [List.mem_append] at hc
      rcases hc with hc | hc
      · exact ih _ c hc
      · simp only [List.mem_singleton] at hc
        exact ⟨n % base, hc⟩

theorem spc_natToBase (base n : ℕ) : spc (natToBase base n) = 0 := by
  apply spc_mk_zero
  intro c hc
  obtain ⟨k, rfl⟩ := digitsAux_chars base (n+1) n c hc
  exact digitChar_plain k

theorem spc_intToBase (base : ℕ) (i : ℤ) : spc (intToBase base i) = 0 := by
  rw [intToBase]
  split
  · rw [spc_append, spc_natToBase]
    decide
  · rw [spc_natToBase]

theorem fracDigitsAux_chars :
    ∀ (fuel : ℕ) (q : ℚ), ∀ c ∈ fracDigitsAux fuel q, ∃ k, c = Nat.digitChar k := by
  intro fuel
  induction fuel with
  | zero => intro q c hc; simp [fracDigitsAux] at hc
  | succ f ih =>
    intro q c hc
    rw [fracDigitsAux] at hc
    split at hc
    · simp at hc
    · simp only [List.mem_cons] at hc
      rcases hc with rfl | hc
      · exact ⟨_, rfl⟩
      · exact ih _ c hc

theorem spc_decStr (q : ℚ) : spc (decStr q) = 0 := by
  rw [decStr, spc_append, spc_append]
  have h1 : spc (if q < 0 then "-" else "") = 0 := by split <;> rfl
  have h2 := spc_natToBase 10 ⌊|q|⌋.toNat
  have h3 : spc (let ds := fracDigitsAux 64 (|q| - ⌊|q|⌋);
      if ds = [] then "" else "." ++ String.mk ds) = 0 := by
    by_cases hds : fracDigitsAux 64 (|q| - ⌊|q|⌋) = []
    · simp only [hds, if_pos]
      decide
    · simp only [if_neg hds]
      rw [spc_append]
      have hmk := spc_mk_zero (fracDigitsAux 64 (|q| - ⌊|q|⌋)) (fun c hc => by
        obtain ⟨k, rfl⟩ := fracDigitsAux_chars 64 _ c hc
        exact digitChar_plain k)
      rw [hmk]
      decide
  omega

theorem spc_rstr (q : ℚ) : spc (rstr q) = 0 := spc_decStr _

/-! ## The escaped character map -/

theorem replChar_append (c : Char) (ent : List Char) (l₁ l₂ : List Char) :
    replChar c ent (l₁ ++ l₂) = replChar c ent l₁ ++ replChar c ent l₂ := by
  simp [replChar]

theorem escape_chain (l : List Char) :
    replChar '"' ['&', 'q', 'u', 'o', 't', ';']
      (replChar '>' ['&', 'g', 't', ';']
        (replChar '<' ['&', 'l', 't', ';']
          (replChar '&' ['&', 'a', 'm', 'p', ';'] l))) = l.bind xmlEntity := by
  induction l with
  | nil => rfl
  | cons a l ih =>
    have hstep : ∀ (c : Char) (e : List Char) (b : Char) (t : List Char),
        replChar c e (b :: t) = (if b = c then e else [b]) ++ replChar c e t := by
      intro c e b t
      simp [replChar]
    rw [hstep, replChar_append, replChar_append, replChar_append, ih]
    have hrhs : (a :: l).bind xmlEntity = xmlEntity a ++ l.bind xmlEntity := rfl
    rw [hrhs]
    congr 1
    by_cases h1 : a = '&'
    · subst h1; rfl
    by_cases h2 : a = '<'
    · subst h2
      rw [if_neg h1]
      decide
    by_cases h3 : a = '>'
    · subst h3
      rw [if_neg h1]
      decide
    by_cases h4 : a = '"'
    · subst h4
      rw [if_neg h1]
      decide
    · rw [if_neg h1]
      simp [replChar, xmlEntity, h1, h2, h3, h4]

/-- `escapeXml` is exactly the per-character entity translation. -/
theorem escapeXml_charmap (s : String) : escapeXml s = String.mk (s.data.bind xmlEntity) := by
  rw [escapeXml, escape_chain]

theorem count_bind_entity (c : Char) (hc : c = '<' ∨ c = '>' ∨ c = '"') (l : List Char) :
    (l.bind xmlEntity).count c = 0 := by
  induction l with
  | nil => rfl
  | cons a l ih =>
    have hrhs : (a :: l).bind xmlEntity = xmlEntity a ++ l.bind xmlEntity := rfl
    rw [hrhs, List.count_append, ih, Nat.add_zero]
    rw [List.count_eq_zero]
    unfold xmlEntity
    split_ifs with g1 g2 g3 g4
    · rcases hc with rfl | rfl | rfl <;> decide
    · rcases hc with rfl | rfl | rfl <;> decide
    · rcases hc with rfl | rfl | rfl <;> decide
    · rcases hc with rfl | rfl | rfl <;> decide
    · simp only [List.mem_singleton]
      rcases hc with rfl | rfl | rfl
      · exact fun hh => g2 hh.symm
      · exact fun hh => g3 hh.symm
      · exact fun hh => g4 hh.symm

/-- Escaped text contains no raw markup character at all. -/
theorem spc_escapeXml (s : String) : spc (escapeXml s) = 0 := by
  rw [escapeXml_charmap]
  have d : (String.mk (s.data.bind xmlEntity)).data = s.data.bind xmlEntity := rfl
  simp only [spc, d]
  rw [count_bind_entity '<' (Or.inl rfl), count_bind_entity '>' (Or.inr (Or.inl rfl)),
    count_bind_entity '"' (Or.inr (Or.inr rfl))]

/-! ## Scrubbing the chart's text fields -/

/-- Replace a text by a fixed placeholder, preserving JS truthiness. -/
def scrubStr (s : String) : String := if s = "" then "" else "x"

/-- Scrub an optional text (presence preserved). -/
def scrubOpt (o : Option String) : Option String := o.map scrubStr

def scrubBar (b : Bar) : Bar := { b with label := scrubOpt b.label }

def scrubPoint (p : LinePoint) : LinePoint := { p with label := scrubOpt p.label }

def scrubLine (l : ChartLine) : ChartLine := { l with points := l.points.map scrubPoint }

def scrubEntry (e : DotEntry) : DotEntry := { e with label := scrubOpt e.label }

def scrubTick (t : TickT) : TickT := { t with label := scrubStr t.label }

def scrubAxisTitle (t : AxisTitle) : AxisTitle := { t with text := scrubStr t.text }

def scrubAxis (a : Axis) : Axis := ⟨a.ticks.map scrubTick, a.title.map scrubAxisTitle⟩

def scrubTitle (t : ChartTitle) : ChartTitle := { t with text := scrubStr t.text }

def scrubLegendItem (i : LegendItem) : LegendItem := { i with label := scrubStr i.label }

/-- Scrub every input text the renderer escapes: bar/point labels, tick
labels, axis and chart titles, legend labels.  Geometry, values, color
indices and the (unlisted, enum-like) `textAnchor` stay fixed. -/
def scrubChart (c : PositionedXYChart) : PositionedXYChart :=
  { c with
    bars := c.bars.map scrubBar
    lines := c.lines.map scrubLine
    xAxis := scrubAxis c.xAxis
    yAxis := scrubAxis c.yAxis
    legend := c.legend.map scrubLegendItem
    title := c.title.map scrubTitle }

theorem scrubStr_empty_iff (s : String) : scrubStr s = "" ↔ s = "" := by
  unfold scrubStr
  split_ifs with h
  · simp [h]
  · simp [h]

theorem strTruthy_scrub (o : Option String) : strTruthy (scrubOpt o) = strTruthy o := by
  cases o with
  | none => rfl
  | some s =>
    simp only [scrubOpt, Option.map_some, strTruthy]
    by_cases h : s = ""
    · simp [h, scrubStr]
    · simp [h, (scrubStr_empty_iff s).not.mpr h]

theorem orEmpty_scrub (o : Option String) : orEmpty (scrubOpt o) = scrubStr (orEmpty o) := by
  cases o with
  | none => rfl
  | some s => rfl

/-! ## Scrubbing changes no raw markup character count, fragment by
fragment -/

theorem spc_strConcat (l : List String) : spc (strConcat l) = (l.map spc).sum := by
  induction l with
  | nil => rfl
  | cons s t ih =>
    have hh : strConcat (s :: t) = s ++ strConcat t := rfl
    rw [hh, spc_append, ih, List.map_cons, List.sum_cons]

theorem spc_joinSep_nl (l : List String) : spc (joinSep "\n" l) = (l.map spc).sum := by
  induction l with
  | nil => rfl
  | cons s t ih =>
    cases t with
    | nil => simp [joinSep, spc]
    | cons s2 t2 =>
      have hh : joinSep "\n" (s :: s2 :: t2) = s ++ "\n" ++ joinSep "\n" (s2 :: t2) := rfl
      rw [hh, spc_append, spc_append, ih, List.map_cons, List.sum_cons]
      have hnl : spc "\n" = 0 := by decide
      simp only [List.map_cons, List.sum_cons] at *
      omega

theorem spc_dataAttrs (v : ℚ) (lab : Option String) :
    spc (dataAttrs v (scrubOpt lab)) = spc (dataAttrs v lab) := by
  unfold dataAttrs
  rw [strTruthy_scrub, orEmpty_scrub]
  by_cases h : strTruthy lab
  · simp only [h, if_true, spc_append, spc_escapeXml, spc_decStr]
  · simp only [h, Bool.false_eq_true, if_false, spc_append, spc_decStr]

theorem spc_barFrag (horizontal : Bool) (b : Bar) :
    spc (barFrag horizontal (scrubBar b)) = spc (barFrag horizontal b) := by
  unfold barFrag scrubBar
  simp only [spc_append]
  rw [spc_dataAttrs]

theorem spc_tooltipAbove (est : String → ℚ → ℚ → ℚ) (tshift : String)
    (cx1 topY1 cx2 topY2 : ℚ) (t1 t2 : String) :
    spc (tooltipAbove est tshift cx1 topY1 t1) = spc (tooltipAbove est tshift cx2 topY2 t2) := by
  unfold tooltipAbove
  simp only [spc_append, spc_rstr, spc_escapeXml, spc_decStr]

/-- Canonical form used to equate two tooltip counts by rewriting. -/
theorem spc_tooltipAbove_canon (est : String → ℚ → ℚ → ℚ) (tshift : String)
    (cx topY : ℚ) (t : String) :
    spc (tooltipAbove est tshift cx topY t) = spc (tooltipAbove est tshift 0 0 "") :=
  spc_tooltipAbove est tshift cx topY 0 0 t ""

theorem spc_multiRow (tshift : String) (a b c a2 b2 c2 : ℚ)
    (ie1 ie2 : ℕ × TipEntry) :
    spc (multiRow tshift a b c ie1) = spc (multiRow tshift a2 b2 c2 ie2) := by
  unfold multiRow
  simp only [spc_append, spc_rstr, spc_escapeXml]

/-- A mapped row block always counts `rows · canonical-row`. -/
theorem sum_spc_rows_canon {β : Type} (tshift : String) (A B C : ℚ)
    (F : β → ℕ × TipEntry) (l : List β) :
    (l.map (spc ∘ multiRow tshift A B C ∘ F)).sum =
      l.length * spc (multiRow tshift 0 0 0 (0, TipEntry.mk "" "")) := by
  induction l with
  | nil => rw [List.map_nil, List.sum_nil, List.length_nil, Nat.zero_mul]
  | cons a t ih =>
    rw [List.map_cons, List.sum_cons, ih, List.length_cons, Nat.succ_mul]
    have happ : (spc ∘ multiRow tshift A B C ∘ F) a = spc (multiRow tshift A B C (F a)) := rfl
    rw [happ, spc_multiRow tshift A B C 0 0 0 (F a) (0, TipEntry.mk "" "")]
    omega

theorem spc_multiTooltipAbove {α : Type} (est : String → ℚ → ℚ → ℚ) (tshift : String)
    (cx1 topY1 cx2 topY2 : ℚ) (lab1 lab2 : String) (l : List α) (f g : α → TipEntry) :
    spc (multiTooltipAbove est tshift cx1 topY1 lab1 (l.map f)) =
      spc (multiTooltipAbove est tshift cx2 topY2 lab2 (l.map g)) := by
  unfold multiTooltipAbove
  simp only [List.length_map, spc_append, spc_rstr, spc_escapeXml, spc_decStr, spc_strConcat,
    List.enum_map, List.map_map]
  rw [sum_spc_rows_canon, sum_spc_rows_canon]

/-- Canonical form used to equate two multi-tooltip counts by rewriting.
The unused value argument keeps both sides in `l.map` form. -/
theorem spc_multiTooltipAbove_canon {α : Type} (est : String → ℚ → ℚ → ℚ) (tshift : String)
    (cx topY : ℚ) (lab : String) (l : List α) (f : α → TipEntry) :
    spc (multiTooltipAbove est tshift cx topY lab (l.map f)) =
      spc (multiTooltipAbove est tshift 0 0 "" (l.map (fun _ => TipEntry.mk "" ""))) :=
  spc_multiTooltipAbove est tshift cx topY 0 0 lab "" l f _

theorem spc_dotCircle (e : DotEntry) : spc (dotCircle (scrubEntry e)) = spc (dotCircle e) := by
  unfold dotCircle scrubEntry
  simp only [spc_append]
  rw [spc_dataAttrs]

theorem sum_spc_dotCircle_scrub (entries : List DotEntry) :
    (entries.map (spc ∘ dotCircle ∘ scrubEntry)).sum = (entries.map (spc ∘ dotCircle)).sum := by
  induction entries with
  | nil => rw [List.map_nil, List.map_nil]
  | cons e t ih =>
    rw [List.map_cons, List.sum_cons, List.map_cons, List.sum_cons, ih]
    have h1 : (spc ∘ dotCircle ∘ scrubEntry) e = spc (dotCircle (scrubEntry e)) := rfl
    have h2 : (spc ∘ dotCircle) e = spc (dotCircle e) := rfl
    rw [h1, h2, spc_dotCircle]

theorem map_spc_dotCircle_scrub (entries : List DotEntry) :
    (List.map dotCircle (List.map scrubEntry entries)).map spc =
      (List.map dotCircle entries).map spc := by
  induction entries with
  | nil => rfl
  | cons e t ih =>
    simp only [List.map_cons]
    rw [ih, spc_dotCircle]

theorem headD_map_scrubEntry (entries : List DotEntry) :
    (entries.map scrubEntry).headD dfltEntry = scrubEntry (entries.headD dfltEntry) := by
  cases entries <;> rfl

theorem comp_scrubEntry_y : DotEntry.y ∘ scrubEntry = DotEntry.y := funext fun _ => rfl

theorem scrubEntry_x (e : DotEntry) : (scrubEntry e).x = e.x := rfl

theorem scrubEntry_y (e : DotEntry) : (scrubEntry e).y = e.y := rfl

theorem scrubEntry_value (e : DotEntry) : (scrubEntry e).value = e.value := rfl

theorem scrubEntry_label (e : DotEntry) : (scrubEntry e).label = scrubOpt e.label := rfl

theorem dotColumnFrags_scrub (est : String → ℚ → ℚ → ℚ) (tshift : String)
    (m m2 : List (ℕ × String)) (inter sparse : Bool) (entries : List DotEntry) :
    ((dotColumnFrags est tshift m2 inter sparse (entries.map scrubEntry)).1.map spc =
      (dotColumnFrags est tshift m inter sparse entries).1.map spc) ∧
    ((dotColumnFrags est tshift m2 inter sparse (entries.map scrubEntry)).2.map spc =
      (dotColumnFrags est tshift m inter sparse entries).2.map spc) := by
  unfold dotColumnFrags
  rw [headD_map_scrubEntry, List.length_map]
  split_ifs with h1 h2 h3
  · refine ⟨rfl, ?_⟩
    simp only [List.map_map, List.map_cons, List.map_nil, comp_scrubEntry_y,
      scrubEntry_x, scrubEntry_y, List.cons.injEq, and_true,
      spc_append, spc_rstr, spc_escapeXml, spc_strConcat]
    rw [sum_spc_dotCircle_scrub, spc_multiTooltipAbove_canon]
    conv_rhs => rw [spc_multiTooltipAbove_canon]
  · refine ⟨rfl, ?_⟩
    simp only [List.map_cons, List.map_nil, List.cons.injEq, and_true,
      scrubEntry_x, scrubEntry_y,
      spc_append, spc_rstr, spc_escapeXml]
    rw [spc_dotCircle, spc_tooltipAbove_canon]
    conv_rhs => rw [spc_tooltipAbove_canon]
  · refine ⟨rfl, ?_⟩
    simp only [List.map_cons, List.map_nil, List.cons.injEq, and_true,
      scrubEntry_x, scrubEntry_y,
      spc_append, spc_rstr, spc_escapeXml]
    rw [spc_dotCircle, spc_tooltipAbove_canon]
    conv_rhs => rw [spc_tooltipAbove_canon]
  · constructor
    · show (List.map dotCircle (List.map scrubEntry entries)).map spc =
        (List.map dotCircle entries).map spc
      exact map_spc_dotCircle_scrub entries
    · show ([] : List String).map spc = ([] : List String).map spc
      rfl

/-! ## Structure preserved by scrubbing -/

theorem scrubChart_width (c : PositionedXYChart) : (scrubChart c).width = c.width := rfl

theorem scrubChart_height (c : PositionedXYChart) : (scrubChart c).height = c.height := rfl

theorem scrubChart_horizontal (c : PositionedXYChart) :
    (scrubChart c).horizontal = c.horizontal := rfl

theorem scrubChart_plotArea (c : PositionedXYChart) : (scrubChart c).plotArea = c.plotArea := rfl

theorem scrubChart_bars (c : PositionedXYChart) : (scrubChart c).bars = c.bars.map scrubBar := rfl

theorem scrubChart_lines (c : PositionedXYChart) :
    (scrubChart c).lines = c.lines.map scrubLine := rfl

theorem scrubChart_legend (c : PositionedXYChart) :
    (scrubChart c).legend = c.legend.map scrubLegendItem := rfl

theorem scrubChart_title (c : PositionedXYChart) :
    (scrubChart c).title = c.title.map scrubTitle := rfl

theorem scrubChart_xAxis_ticks (c : PositionedXYChart) :
    (scrubChart c).xAxis.ticks = c.xAxis.ticks.map scrubTick := rfl

theorem scrubChart_yAxis_ticks (c : PositionedXYChart) :
    (scrubChart c).yAxis.ticks = c.yAxis.ticks.map scrubTick := rfl

theorem scrubChart_xAxis_title (c : PositionedXYChart) :
    (scrubChart c).xAxis.title = c.xAxis.title.map scrubAxisTitle := rfl

theorem scrubChart_yAxis_title (c : PositionedXYChart) :
    (scrubChart c).yAxis.title = c.yAxis.title.map scrubAxisTitle := rfl

theorem scrubChart_gridLines (c : PositionedXYChart) :
    (scrubChart c).gridLines = c.gridLines := rfl

theorem comp_scrubBar_colorIndex : Bar.colorIndex ∘ scrubBar = Bar.colorIndex :=
  funext fun _ => rfl

theorem comp_scrubLine_colorIndex : ChartLine.colorIndex ∘ scrubLine = ChartLine.colorIndex :=
  funext fun _ => rfl

theorem colorIdxList_scrub (c : PositionedXYChart) :
    colorIdxList (scrubChart c) = colorIdxList c := by
  unfold colorIdxList
  rw [scrubChart_bars, scrubChart_lines, List.map_map, List.map_map,
    comp_scrubBar_colorIndex, comp_scrubLine_colorIndex]

theorem maxColorIdx_scrub (c : PositionedXYChart) :
    maxColorIdx (scrubChart c) = maxColorIdx c := by
  unfold maxColorIdx
  rw [scrubChart_bars, scrubChart_lines, List.map_map, List.map_map,
    comp_scrubBar_colorIndex, comp_scrubLine_colorIndex]

theorem comp_scrubLine_pointsLen :
    (fun l : ChartLine => l.points.length) ∘ scrubLine = fun l : ChartLine => l.points.length :=
  funext fun l => List.length_map l.points scrubPoint

theorem maxLinePoints_scrub (c : PositionedXYChart) :
    maxLinePoints (scrubChart c) = maxLinePoints c := by
  unfold maxLinePoints
  rw [scrubChart_lines, List.map_map, comp_scrubLine_pointsLen]

theorem sparseOf_scrub (c : PositionedXYChart) : sparseOf (scrubChart c) = sparseOf c := by
  unfold sparseOf
  rw [maxLinePoints_scrub]

theorem comp_scrubTick_x : TickT.x ∘ scrubTick = TickT.x := funext fun _ => rfl

theorem comp_scrubTick_y : TickT.y ∘ scrubTick = TickT.y := funext fun _ => rfl

theorem gridXVals_scrub (c : PositionedXYChart) : gridXVals (scrubChart c) = gridXVals c := by
  unfold gridXVals
  rw [scrubChart_xAxis_ticks, List.map_map, comp_scrubTick_x]

theorem gridYVals_scrub (c : PositionedXYChart) : gridYVals (scrubChart c) = gridYVals c := by
  unfold gridYVals
  rw [scrubChart_horizontal, scrubChart_yAxis_ticks, scrubChart_gridLines,
    List.map_map, comp_scrubTick_y]

theorem gridSect_scrub (c : PositionedXYChart) : gridSect (scrubChart c) = gridSect c := by
  unfold gridSect
  rw [gridXVals_scrub, gridYVals_scrub, scrubChart_plotArea]

theorem chartStyles_scrub (c : PositionedXYChart) (inter sp : Bool)
    (ta bg : Option String) :
    chartStyles (scrubChart c) inter sp ta bg = chartStyles c inter sp ta bg := by
  unfold chartStyles
  rw [colorIdxList_scrub]

theorem bind_map_of_comp {α β : Type} (l : List α) (g : α → α) (F : α → List β)
    (h : ∀ a, F (g a) = F a) : (l.map g).bind F = l.bind F := by
  induction l with
  | nil => rfl
  | cons a t ih =>
    have e1 : ((a :: t).map g).bind F = F (g a) ++ (t.map g).bind F := rfl
    have e2 : (a :: t).bind F = F a ++ t.bind F := rfl
    rw [e1, e2, h a, ih]

theorem lineSect_scrub (c : PositionedXYChart) : lineSect (scrubChart c) = lineSect c := by
  unfold lineSect
  rw [scrubChart_lines]
  apply bind_map_of_comp
  intro ln
  have hpts : (scrubLine ln).points = ln.points.map scrubPoint := rfl
  have hci : (scrubLine ln).colorIndex = ln.colorIndex := rfl
  have hie : (ln.points.map scrubPoint).isEmpty = ln.points.isEmpty := by
    cases ln.points <;> rfl
  have hproj : (ln.points.map scrubPoint).map (fun p => (p.x, p.y)) =
      ln.points.map (fun p => (p.x, p.y)) := by
    rw [List.map_map]
    rfl
  rw [hpts, hci, hie, hproj]

/-! ## Column grouping under scrubbing -/

/-- Scrubbing one built column. -/
def colScrub (kv : String × List DotEntry) : String × List DotEntry :=
  (kv.1, kv.2.map scrubEntry)

theorem colSet_scrub (m : List (String × List DotEntry)) (k : String) (e : DotEntry) :
    colSet (m.map colScrub) k (scrubEntry e) = (colSet m k e).map colScrub := by
  unfold colSet
  have hany : (m.map colScrub).any (fun p => p.1 = k) = m.any (fun p => p.1 = k) := by
    rw [List.any_map]
    rfl
  rw [hany]
  split_ifs with h
  · rw [List.map_map, List.map_map]
    apply List.map_congr_left
    intro p _
    by_cases hpk : p.1 = k <;> simp [colScrub, hpk, Function.comp]
  · rw [List.map_append]
    rfl

theorem buildColumns_scrub (lines : List ChartLine) :
    buildColumns (lines.map scrubLine) = (buildColumns lines).map colScrub := by
  have hfold : ∀ (ps : List LinePoint) (si ci : ℕ) (m2 : List (String × List DotEntry)),
      (ps.map scrubPoint).foldl (fun acc p =>
        colSet acc (rstr p.x) ⟨p.x, p.y, p.value, p.label, si, ci⟩) (m2.map colScrub) =
      (ps.foldl (fun acc p =>
        colSet acc (rstr p.x) ⟨p.x, p.y, p.value, p.label, si, ci⟩) m2).map colScrub := by
    intro ps
    induction ps with
    | nil => intro si ci m2; rfl
    | cons p pt ihp =>
      intro si ci m2
      rw [List.map_cons, List.foldl_cons, List.foldl_cons]
      have hentry : (⟨(scrubPoint p).x, (scrubPoint p).y, (scrubPoint p).value,
          (scrubPoint p).label, si, ci⟩ : DotEntry) =
          scrubEntry ⟨p.x, p.y, p.value, p.label, si, ci⟩ := rfl
      have hkey : rstr (scrubPoint p).x = rstr p.x := rfl
      rw [hentry, hkey, colSet_scrub]
      exact ihp si ci _
  have hmain : ∀ (ls : List ChartLine) (m : List (String × List DotEntry)),
      (ls.map scrubLine).foldl (fun m ln => ln.points.foldl (fun m2 p =>
        colSet m2 (rstr p.x) ⟨p.x, p.y, p.value, p.label, ln.seriesIndex, ln.colorIndex⟩) m)
        (m.map colScrub) =
      (ls.foldl (fun m ln => ln.points.foldl (fun m2 p =>
        colSet m2 (rstr p.x)
          ⟨p.x, p.y, p.value, p.label, ln.seriesIndex, ln.colorIndex⟩) m) m).map colScrub := by
    intro ls
    induction ls with
    | nil => intro m; rfl
    | cons ln t ih =>
      intro m
      rw [List.map_cons, List.foldl_cons, List.foldl_cons]
      have hpts : (scrubLine ln).points = ln.points.map scrubPoint := rfl
      have hsi : (scrubLine ln).seriesIndex = ln.seriesIndex := rfl
      have hci : (scrubLine ln).colorIndex = ln.colorIndex := rfl
      rw [hpts, hsi, hci, hfold ln.points ln.seriesIndex ln.colorIndex m]
      exact ih _
  have h0 : ([] : List (String × List DotEntry)) = ([] : List (String × List DotEntry)).map colScrub := rfl
  unfold buildColumns
  rw [h0, hmain]
  rfl

/-! ## Section-level count equalities -/

theorem map_spc_map_congr {α : Type} (l : List α) (g : α → α) (F : α → String)
    (h : ∀ a, spc (F (g a)) = spc (F a)) :
    ((l.map g).map F).map spc = (l.map F).map spc := by
  induction l with
  | nil => rfl
  | cons a t ih =>
    simp only [List.map_cons]
    rw [ih, h a]

theorem bind_map_spc_congr2 {α : Type} (l : List α) (g : α → α) (F G : α → List String)
    (h : ∀ a, (F (g a)).map spc = (G a).map spc) :
    ((l.map g).bind F).map spc = (l.bind G).map spc := by
  induction l with
  | nil => rfl
  | cons a t ih =>
    have e1 : ((a :: t).map g).bind F = F (g a) ++ (t.map g).bind F := rfl
    have e2 : (a :: t).bind G = G a ++ t.bind G := rfl
    rw [e1, e2, List.map_append, List.map_append, ih, h a]

theorem scrubBar_value (b : Bar) : (scrubBar b).value = b.value := rfl

theorem scrubBar_x (b : Bar) : (scrubBar b).x = b.x := rfl

theorem scrubBar_y (b : Bar) : (scrubBar b).y = b.y := rfl

theorem scrubBar_width (b : Bar) : (scrubBar b).width = b.width := rfl

theorem scrubBar_height (b : Bar) : (scrubBar b).height = b.height := rfl

theorem scrubBar_label (b : Bar) : (scrubBar b).label = scrubOpt b.label := rfl

theorem spc_barOverlayFrag (est : String → ℚ → ℚ → ℚ) (tshift : String) (b : Bar) :
    spc (barOverlayFrag est tshift (scrubBar b)) = spc (barOverlayFrag est tshift b) := by
  unfold barOverlayFrag
  simp only [scrubBar_x, scrubBar_y, scrubBar_width, scrubBar_height, scrubBar_value,
    spc_append, spc_rstr, spc_escapeXml]

theorem spc_tickFrag (tshift : String) (t : TickT) :
    spc (tickFrag tshift (scrubTick t)) = spc (tickFrag tshift t) := by
  have h1 : (scrubTick t).labelX = t.labelX := rfl
  have h2 : (scrubTick t).labelY = t.labelY := rfl
  have h3 : (scrubTick t).textAnchor = t.textAnchor := rfl
  have h4 : (scrubTick t).label = scrubStr t.label := rfl
  unfold tickFrag
  rw [h1, h2, h3, h4]
  simp only [spc_append, spc_escapeXml, spc_decStr]

theorem spc_axisTitleFrag (tshift : String) (t : AxisTitle) :
    spc (axisTitleFrag tshift (scrubAxisTitle t)) = spc (axisTitleFrag tshift t) := by
  have h1 : (scrubAxisTitle t).x = t.x := rfl
  have h2 : (scrubAxisTitle t).y = t.y := rfl
  have h3 : (scrubAxisTitle t).rotate = t.rotate := rfl
  have h4 : (scrubAxisTitle t).text = scrubStr t.text := rfl
  unfold axisTitleFrag
  rw [h1, h2, h3, h4]
  simp only [spc_append, spc_escapeXml, spc_decStr]

theorem spc_titleFrag (tshift : String) (t : ChartTitle) :
    spc (titleFrag tshift (scrubTitle t)) = spc (titleFrag tshift t) := by
  have h1 : (scrubTitle t).x = t.x := rfl
  have h2 : (scrubTitle t).y = t.y := rfl
  have h3 : (scrubTitle t).text = scrubStr t.text := rfl
  unfold titleFrag
  rw [h1, h2, h3]
  simp only [spc_append, spc_escapeXml, spc_decStr]

theorem spc_legendFrags (tshift : String) (i : LegendItem) :
    (legendFrags tshift (scrubLegendItem i)).map spc = (legendFrags tshift i).map spc := by
  have h1 : (scrubLegendItem i).x = i.x := rfl
  have h2 : (scrubLegendItem i).y = i.y := rfl
  have h3 : (scrubLegendItem i).colorIndex = i.colorIndex := rfl
  have h4 : (scrubLegendItem i).label = scrubStr i.label := rfl
  have h5 : (scrubLegendItem i).kind = i.kind := rfl
  unfold legendFrags
  rw [h1, h2, h3, h4, h5]
  cases i.kind <;>
    simp only [List.map_append, List.map_cons, List.map_nil, spc_append, spc_escapeXml,
      spc_decStr]

theorem dotSects_scrub (est : String → ℚ → ℚ → ℚ) (tshift : String)
    (inter sp : Bool) (c : PositionedXYChart) :
    ((dotSects est tshift inter sp (scrubChart c)).1.map spc =
      (dotSects est tshift inter sp c).1.map spc) ∧
    ((dotSects est tshift inter sp (scrubChart c)).2.map spc =
      (dotSects est tshift inter sp c).2.map spc) := by
  unfold dotSects
  rw [scrubChart_lines, scrubChart_legend, buildColumns_scrub]
  split_ifs with h
  · constructor
    · apply bind_map_spc_congr2
      intro kv
      have hsnd : (colScrub kv).2 = kv.2.map scrubEntry := rfl
      rw [hsnd]
      exact (dotColumnFrags_scrub est tshift (lineLegendLabels c.legend)
        (lineLegendLabels (c.legend.map scrubLegendItem)) inter sp kv.2).1
    · apply bind_map_spc_congr2
      intro kv
      have hsnd : (colScrub kv).2 = kv.2.map scrubEntry := rfl
      rw [hsnd]
      exact (dotColumnFrags_scrub est tshift (lineLegendLabels c.legend)
        (lineLegendLabels (c.legend.map scrubLegendItem)) inter sp kv.2).2
  · exact ⟨rfl, rfl⟩

theorem optAxisTitle_spc (tshift : String) (t : Option AxisTitle) :
    ((match t.map scrubAxisTitle with
      | some x => [axisTitleFrag tshift x] | none => []).map spc) =
    ((match t with | some x => [axisTitleFrag tshift x] | none => []).map spc) := by
  cases t with
  | none => rfl
  | some x =>
    show ([axisTitleFrag tshift (scrubAxisTitle x)]).map spc =
      ([axisTitleFrag tshift x]).map spc
    simp only [List.map_cons, List.map_nil, spc_axisTitleFrag]

theorem optTitle_spc (tshift : String) (t : Option ChartTitle) :
    ((match t.map scrubTitle with
      | some x => [titleFrag tshift x] | none => []).map spc) =
    ((match t with | some x => [titleFrag tshift x] | none => []).map spc) := by
  cases t with
  | none => rfl
  | some x =>
    show ([titleFrag tshift (scrubTitle x)]).map spc = ([titleFrag tshift x]).map spc
    simp only [List.map_cons, List.map_nil, spc_titleFrag]

theorem overlay_spc (est : String → ℚ → ℚ → ℚ) (tshift : String) (inter : Bool)
    (bars : List Bar) :
    ((if inter then (bars.map scrubBar).map (barOverlayFrag est tshift) else []).map spc) =
    ((if inter then bars.map (barOverlayFrag est tshift) else []).map spc) := by
  cases inter with
  | false => rfl
  | true =>
    show ((bars.map scrubBar).map (barOverlayFrag est tshift)).map spc =
      (bars.map (barOverlayFrag est tshift)).map spc
    exact map_spc_map_congr bars scrubBar (barOverlayFrag est tshift)
      (spc_barOverlayFrag est tshift)

/-- Per-part markup-special counts of the rendered parts are invariant
under scrubbing every user text field. -/
theorem renderParts_spc (est : String → ℚ → ℚ → ℚ) (tshift : String)
    (svgRoot : ℚ → ℚ → DiagramColors → Bool → ℕ → String)
    (styleBlock : String → Bool → String)
    (chart : PositionedXYChart) (colors : DiagramColors)
    (font : String) (transparent interactive : Bool) :
    (renderParts est tshift svgRoot styleBlock (scrubChart chart) colors font transparent
      interactive).map spc =
    (renderParts est tshift svgRoot styleBlock chart colors font transparent
      interactive).map spc := by
  unfold renderParts
  rw [scrubChart_width, scrubChart_height, maxColorIdx_scrub, chartStyles_scrub,
    sparseOf_scrub, gridSect_scrub, lineSect_scrub, scrubChart_horizontal, scrubChart_bars,
    scrubChart_xAxis_ticks, scrubChart_yAxis_ticks, scrubChart_xAxis_title,
    scrubChart_yAxis_title, scrubChart_title, scrubChart_legend]
  simp only [List.map_append]
  rw [map_spc_map_congr chart.bars scrubBar (barFrag chart.horizontal)
      (spc_barFrag chart.horizontal),
    (dotSects_scrub est tshift interactive (sparseOf chart) chart).1,
    (dotSects_scrub est tshift interactive (sparseOf chart) chart).2,
    map_spc_map_congr chart.xAxis.ticks scrubTick (tickFrag tshift) (spc_tickFrag tshift),
    map_spc_map_congr chart.yAxis.ticks scrubTick (tickFrag tshift) (spc_tickFrag tshift),
    optAxisTitle_spc tshift chart.xAxis.title, optAxisTitle_spc tshift chart.yAxis.title,
    optTitle_spc tshift chart.title,
    bind_map_spc_congr2 chart.legend scrubLegendItem (legendFrags tshift)
      (legendFrags tshift) (spc_legendFrags tshift),
    overlay_spc est tshift interactive chart.bars]

/-- C10: `escapeXml` replaces every occurrence of `&`, `<`, `>` and `"`
by its XML entity (it is exactly the per-character entity expansion, so
its output never contains a raw `<`, `>` or `"`), and every input-derived
text that `renderXYChartSvg` interpolates — bar/point labels and
data-label attributes, tick labels, axis and chart titles, legend labels,
tooltip texts and tooltip title elements — passes through `escapeXml`: the
count of raw markup characters in the rendered document is invariant under
replacing all those text fields, so no input text can contribute an
unescaped `<`, `>` or `"` to the markup. -/
theorem renderXYChartSvg_escapes_text :
    (∀ s : String,
      escapeXml s = String.mk (s.data.bind xmlEntity) ∧ spc (escapeXml s) = 0) ∧
    (∀ (est : String → ℚ → ℚ → ℚ) (tshift : String)
       (svgRoot : ℚ → ℚ → DiagramColors → Bool → ℕ → String)
       (styleBlock : String → Bool → String)
       (chart : PositionedXYChart) (colors : DiagramColors)
       (font : String) (transparent interactive : Bool),
      spc (renderXYChartSvg est tshift svgRoot styleBlock (scrubChart chart) colors font
        transparent interactive) =
      spc (renderXYChartSvg est tshift svgRoot styleBlock chart colors font
        transparent interactive)) := by
  constructor
  · intro s
    exact ⟨escapeXml_charmap s, spc_escapeXml s⟩
  · intro est tshift svgRoot styleBlock chart colors font transparent interactive
    unfold renderXYChartSvg
    rw [spc_joinSep_nl, spc_joinSep_nl,
      renderParts_spc est tshift svgRoot styleBlock chart colors font transparent interactive]

end BeautifulMermaid
